import Mathlib

/-!
# Verification of the `StreamerWrap` flattening layer (`flat_wrap.rs`)

This development shallowly embeds the `StreamerWrap` struct of
`ni-streamer/src/flat_wrap.rs` — the flat Python-facing wrapper around the
streamer → devices → channels tree — and proves properties of its public
operations.

The wrapper file itself is pure delegation plus error-type translation.
The engine it delegates to (`base_streamer`'s `BaseChan` / `BaseDev` /
`BaseStreamer` and the NI `Streamer` / `AODev` / `DODev` / `AOChan` /
`DOChan` types) is not part of the visible sources; those parts are
modelled from the specification and are marked `Modelled from the spec:`
in their doc comments.  Everything else is translated directly from
`flat_wrap.rs`.

Conventions of the embedding:
* Rust `f64` times/values are embedded as `ℚ` (the claims under study are
  order-theoretic and do not depend on floating-point rounding).
* `PyResult<T>` becomes `Res T`; a reachable Rust `panic!` / `.expect` /
  `.unwrap` failure is the distinguished outcome `Res.panic`.
* `&mut self` methods are embedded as explicit state passing:
  `Streamer → args → Res α × Streamer`; `&self` methods likewise return
  the (unchanged) state so that freedom from side effects is a theorem
  rather than a typing convention.
* The `IndexMap`s of the streamer tree are embedded as association lists.
-/

set_option linter.unusedVariables false

namespace NiStreamer

/-- Python exception values produced by the wrapper
(`PyValueError`, `PyKeyError`, `PyRuntimeError`). -/
inductive PyErr : Type where
  | valueError (msg : String)
  | keyError (msg : String)
  | runtimeError (msg : String)
  deriving DecidableEq, Repr

/-- `true` iff the error is a `PyRuntimeError`. -/
def PyErr.isRuntimeError : PyErr → Bool
  | .runtimeError _ => true
  | _ => false

/-- Outcome of a wrapper call: a value, a raised Python exception, or a
Rust panic (process abort). -/
inductive Res (α : Type) : Type where
  | ok (a : α)
  | err (e : PyErr)
  | panic (msg : String)
  deriving Repr

/-- `true` iff the outcome is a panic. -/
def Res.isPanic {α : Type} : Res α → Bool
  | .panic _ => true
  | _ => false

/-- `true` iff the outcome is a raised exception. -/
def Res.isErr {α : Type} : Res α → Bool
  | .err _ => true
  | _ => false

/-! ## Association lists (embedding of the `IndexMap`s of the tree) -/

/-- First value stored under key `k` (embeds `map.get(k)`). -/
def lookupA {β : Type} (l : List (String × β)) (k : String) : Option β :=
  (l.find? (fun p => p.1 == k)).map (fun p => p.2)

/-- Key-membership test (embeds `map.contains_key(k)`). -/
def containsA {β : Type} (l : List (String × β)) (k : String) : Bool :=
  l.any (fun p => p.1 == k)

/-- The key list, in iteration order (embeds `map.keys()`). -/
def keysA {β : Type} (l : List (String × β)) : List String :=
  l.map (fun p => p.1)

/-- In-place replacement of the value under key `k` (embeds mutation
through `map.get_mut(k)`); keys and their order are untouched. -/
def updateA {β : Type} (l : List (String × β)) (k : String) (v : β) :
    List (String × β) :=
  l.map (fun p => if p.1 == k then (p.1, v) else p)

theorem containsA_iff_lookupA_isSome {β : Type}
    (l : List (String × β)) (k : String) :
    containsA l k = true ↔ (lookupA l k).isSome = true := by
  induction l with
  | nil => simp [containsA, lookupA]
  | cons p t ih =>
    by_cases h : p.1 == k
    · simp [containsA, lookupA, List.find?, h]
    · simp only [containsA, lookupA, List.find?, h, List.any_cons,
        Bool.false_or] at ih ⊢
      exact ih

theorem lookupA_updateA_self {β : Type}
    (l : List (String × β)) (k : String) (v : β)
    (h : containsA l k = true) :
    lookupA (updateA l k v) k = some v := by
  induction l with
  | nil => simp [containsA] at h
  | cons p t ih =>
    by_cases hp : p.1 == k
    · simp [updateA, lookupA, List.find?, hp]
    · have ht : containsA t k = true := by
        simpa [containsA, hp] using h
      simpa [updateA, lookupA, List.find?, hp] using ih ht

theorem lookupA_eq_some_of_containsA {β : Type}
    (l : List (String × β)) (k : String)
    (h : containsA l k = true) : ∃ v, lookupA l k = some v := by
  have := (containsA_iff_lookupA_isSome l k).mp h
  exact Option.isSome_iff_exists.mp this

/-! ## Instructions and channel timelines

Modelled from the spec (§3, §4.1): the instruction timeline engine lives in
`base_streamer`, outside the visible sources. -/

/-- Modelled from the spec: an Instruction is
`{start_time : f64, duration : Option<(f64, bool)>, func}`; `duration = None`
is open-ended (resolved at compile time), the boolean flag of a fixed
duration distinguishes plain fixed duration from "extend to fill gap" and is
carried opaquely (it does not change the interval the instruction occupies,
which is `[start, start + dur)`). -/
structure Instr (V : Type) : Type where
  start : ℚ
  dur : Option (ℚ × Bool)
  func : ℚ → V

/-- The fixed end time `start + dur` of an instruction, `none` for an
open-ended one (whose effective end is known only after resolution). -/
def Instr.fixedEnd {V : Type} (i : Instr V) : Option ℚ :=
  i.dur.map (fun d => i.start + d.1)

/-- The larger of two rationals, written with an explicit comparison so
that it evaluates by kernel reduction. -/
def qmax (a b : ℚ) : ℚ := if a ≤ b then b else a

/-- The smaller of two rationals. -/
def qmin (a b : ℚ) : ℚ := if a ≤ b then a else b

theorem qmax_eq_max (a b : ℚ) : qmax a b = max a b := by
  rw [qmax, max_def]

theorem qmin_eq_min (a b : ℚ) : qmin a b = min a b := by
  rw [qmin, min_def]

/-- Modelled from the spec: two instructions conflict when the intervals
they may occupy intersect, an open-ended instruction occupying `[start, ∞)`
(its end is unknown until compile, and any later instruction "is itself a
conflict" while it is open). -/
def Instr.conflictsWith {V : Type} (i j : Instr V) : Bool :=
  match i.fixedEnd, j.fixedEnd with
  | some a, some b => decide (qmax i.start j.start < qmin a b)
  | some a, none => decide (qmax i.start j.start < a)
  | none, some b => decide (qmax i.start j.start < b)
  | none, none => true

theorem Instr.conflictsWith_symm {V : Type} (i j : Instr V) :
    i.conflictsWith j = j.conflictsWith i := by
  unfold Instr.conflictsWith
  cases hi : i.fixedEnd <;> cases hj : j.fixedEnd <;>
    simp [qmax_eq_max, qmin_eq_min, max_comm i.start j.start, min_comm]

/-- Modelled from the spec: insertion into the timeline keyed (sorted
ascending) by `start_time`. -/
def insertInstr {V : Type} (x : Instr V) : List (Instr V) → List (Instr V)
  | [] => [x]
  | y :: ys => if x.start ≤ y.start then x :: y :: ys else y :: insertInstr x ys

/-- Modelled from the spec (§4.1 `add_instr`): requires `t ≥ 0`; the new
instruction's interval must not overlap any existing instruction (overlap
with a fixed instruction is an `OverlapError`, insertion while an open-ended
instruction is pending is a `PendingOpenInstructionError`); on success the
instruction is inserted in start-time order. -/
def addInstrTL {V : Type} (tl : List (Instr V))
    (f : ℚ → V) (t : ℚ) (durSpec : Option (ℚ × Bool)) :
    Except String (List (Instr V)) :=
  if t < 0 then
    .error ("Instruction start time " ++ toString t ++ " is negative")
  else
    let newInstr : Instr V := ⟨t, durSpec, f⟩
    if tl.any (fun i => i.conflictsWith newInstr) then
      .error ("Instruction at t = " ++ toString t ++
        " conflicts with an existing instruction on this channel")
    else
      .ok (insertInstr newInstr tl)

/-- Modelled from the spec (§4.1 `compile`): each instruction's resolved
interval; an open-ended instruction's end resolves to the start of the next
instruction, or to the stop time if it is the last one. -/
def resolveTL {V : Type} (stop : ℚ) : List (Instr V) → List (ℚ × ℚ)
  | [] => []
  | [i] => [(i.start, match i.fixedEnd with | some e => e | none => stop)]
  | i :: j :: rest =>
      (i.start, match i.fixedEnd with | some e => e | none => j.start) ::
        resolveTL stop (j :: rest)

/-- Two half-open rational intervals `[p.1, p.2)`, `[q.1, q.2)` share no
point. -/
def ivalDisjoint (p q : ℚ × ℚ) : Prop :=
  ∀ τ : ℚ, ¬(p.1 ≤ τ ∧ τ < p.2 ∧ q.1 ≤ τ ∧ τ < q.2)

theorem ivalDisjoint_symm {p q : ℚ × ℚ} (h : ivalDisjoint p q) :
    ivalDisjoint q p := by
  intro τ hc
  exact h τ ⟨hc.2.2.1, hc.2.2.2, hc.1, hc.2.1⟩

/-- Modelled from the spec: each instruction paired with its resolved end
time, if known: a fixed instruction ends at `start + dur`; an open-ended one
ends at the start of the next instruction, or — when it is the last one — at
the memoized compile stop time `cstop` (`none` while uncompiled). -/
def resolvedIvals {V : Type} (cstop : Option ℚ) :
    List (Instr V) → List (Instr V × Option ℚ)
  | [] => []
  | [i] => [(i, match i.fixedEnd with | some e => some e | none => cstop)]
  | i :: j :: rest =>
      (i, match i.fixedEnd with | some e => some e | none => some j.start) ::
        resolvedIvals cstop (j :: rest)

/-- Modelled from the spec (§4.1 `calc_nsamps`): the channel's value at
time `τ` is `func (τ - start)` for the instruction whose resolved interval
contains `τ`, or the default value when none does. -/
def sampleAtTL {V : Type} (instrs : List (Instr V)) (cstop : Option ℚ)
    (dflt : V) (τ : ℚ) : V :=
  match (resolvedIvals cstop instrs).find?
      (fun p => decide (p.1.start ≤ τ) &&
        (match p.2 with | some e => decide (τ < e) | none => false)) with
  | some p => p.1.func (τ - p.1.start)
  | none => dflt

/-- Modelled from the spec (§4.1 `last_instr_end_time`): end time of the
last instruction (its resolved end if known, else its start while still
open and unresolved), or `0` if the timeline is empty. -/
def lastInstrEndTimeTL {V : Type} (instrs : List (Instr V))
    (cstop : Option ℚ) : ℚ :=
  match (resolvedIvals cstop instrs).getLast? with
  | some p => p.2.getD p.1.start
  | none => 0

/-- Modelled from the spec (§4.1 `calc_nsamps`): `n_samps` evenly spaced
samples over `[start_time, end_time]` (defaults `0` and the last resolved
instruction end); fails when `n_samps = 0`, when `start_time > end_time`,
or when an open-ended instruction is still unresolved inside the requested
window. -/
def calcNsampsTL {V : Type} (instrs : List (Instr V)) (cstop : Option ℚ)
    (dflt : V) (nSamps : Nat) (startTime endTime : Option ℚ) :
    Except String (List V) :=
  let tStart := startTime.getD 0
  let tEnd := endTime.getD (lastInstrEndTimeTL instrs cstop)
  if nSamps = 0 then
    .error "Cannot calculate zero samples"
  else if tEnd < tStart then
    .error ("Requested window start " ++ toString tStart ++
      " exceeds window end " ++ toString tEnd)
  else if (resolvedIvals cstop instrs).any
      (fun p => p.2.isNone && decide (p.1.start ≤ tEnd)) then
    .error "Channel contains an unresolved open-ended instruction in the requested window"
  else
    .ok ((List.range nSamps).map (fun k =>
      sampleAtTL instrs cstop dflt (tStart + k * (tEnd - tStart) / nSamps)))

/-! ## Channels -/

/-- Modelled from the spec: an analog-output channel
(`AOChan::new(chan_idx, samp_rate, dflt_val, rst_val)`), owning its ordered
instruction timeline and the memoized compile stop time (the edit cache). -/
structure AOChan : Type where
  idx : Nat
  sampRate : ℚ
  dfltVal : ℚ
  rstVal : ℚ
  instrs : List (Instr ℚ)
  compiledStop : Option ℚ

/-- Modelled from the spec: a digital-output channel
(`DOChan::new(port_idx, line_idx, samp_rate, dflt_val, rst_val)`). -/
structure DOChan : Type where
  port : Nat
  line : Nat
  sampRate : ℚ
  dfltVal : Bool
  rstVal : Bool
  instrs : List (Instr Bool)
  compiledStop : Option ℚ

/-- Embeds `AOChan::new`. -/
def AOChan.new (idx : Nat) (sampRate dfltVal rstVal : ℚ) : AOChan :=
  ⟨idx, sampRate, dfltVal, rstVal, [], none⟩

/-- Embeds `DOChan::new`. -/
def DOChan.new (port line : Nat) (sampRate : ℚ) (dfltVal rstVal : Bool) :
    DOChan :=
  ⟨port, line, sampRate, dfltVal, rstVal, [], none⟩

/-- Modelled from the spec: the computed name of an AO channel is
`"ao{idx}"`. -/
def AOChan.name (ch : AOChan) : String := "ao" ++ toString ch.idx

/-- Modelled from the spec: the computed name of a DO channel is
`"port{p}/line{l}"`. -/
def DOChan.name (ch : DOChan) : String :=
  "port" ++ toString ch.port ++ "/line" ++ toString ch.line

/-- Modelled from the spec (§4.1): `add_instr` on an AO channel; success
invalidates the channel's compiled-sample cache. -/
def AOChan.addInstr (ch : AOChan) (f : ℚ → ℚ) (t : ℚ)
    (durSpec : Option (ℚ × Bool)) : Except String AOChan :=
  (addInstrTL ch.instrs f t durSpec).map
    (fun tl => { ch with instrs := tl, compiledStop := none })

/-- Modelled from the spec (§4.1): `add_instr` on a DO channel. -/
def DOChan.addInstr (ch : DOChan) (f : ℚ → Bool) (t : ℚ)
    (durSpec : Option (ℚ × Bool)) : Except String DOChan :=
  (addInstrTL ch.instrs f t durSpec).map
    (fun tl => { ch with instrs := tl, compiledStop := none })

/-- Modelled from the spec (§4.1 `clear_edit_cache`): discards the memoized
compiled output without discarding instructions. -/
def AOChan.clearEditCache (ch : AOChan) : AOChan :=
  { ch with compiledStop := none }

/-- Modelled from the spec (§4.1 `clear_edit_cache`). -/
def DOChan.clearEditCache (ch : DOChan) : DOChan :=
  { ch with compiledStop := none }

/-- Modelled from the spec (§4.1 `last_instr_end_time`). -/
def AOChan.lastInstrEndTime (ch : AOChan) : ℚ :=
  lastInstrEndTimeTL ch.instrs ch.compiledStop

/-- Modelled from the spec (§4.1 `last_instr_end_time`). -/
def DOChan.lastInstrEndTime (ch : DOChan) : ℚ :=
  lastInstrEndTimeTL ch.instrs ch.compiledStop

/-- Modelled from the spec (§4.1 `calc_nsamps`). -/
def AOChan.calcNsamps (ch : AOChan) (nSamps : Nat)
    (startTime endTime : Option ℚ) : Except String (List ℚ) :=
  calcNsampsTL ch.instrs ch.compiledStop ch.dfltVal nSamps startTime endTime

/-- Modelled from the spec (§4.1 `calc_nsamps`). -/
def DOChan.calcNsamps (ch : DOChan) (nSamps : Nat)
    (startTime endTime : Option ℚ) : Except String (List Bool) :=
  calcNsampsTL ch.instrs ch.compiledStop ch.dfltVal nSamps startTime endTime

/-! ## Devices -/

/-- Hardware-routing settings of a device (`CommonHwCfg`), all optional and
initially unset. -/
structure HwCfg : Type where
  startTrigIn : Option String := none
  startTrigOut : Option String := none
  sampClkIn : Option String := none
  sampClkOut : Option String := none
  refClkIn : Option String := none
  minBufwriteTimeout : Option ℚ := none

/-- Modelled from the spec: an AO device (`AODev::new(name, samp_rate)`)
owning its channels keyed by computed channel name. -/
structure AODev : Type where
  name : String
  sampRate : ℚ
  chans : List (String × AOChan)
  hwCfg : HwCfg

/-- Modelled from the spec: a DO device (`DODev::new(name, samp_rate)`). -/
structure DODev : Type where
  name : String
  sampRate : ℚ
  chans : List (String × DOChan)
  hwCfg : HwCfg

/-- Embeds `AODev::new`. -/
def AODev.new (name : String) (sampRate : ℚ) : AODev :=
  ⟨name, sampRate, [], {}⟩

/-- Embeds `DODev::new`. -/
def DODev.new (name : String) (sampRate : ℚ) : DODev :=
  ⟨name, sampRate, [], {}⟩

/-- Modelled from the spec (§4.2 `add_chan_sort`): insertion keeping the
channel map sorted by name. -/
def insertChanSorted {β : Type} (k : String) (v : β) :
    List (String × β) → List (String × β)
  | [] => [(k, v)]
  | p :: ps =>
      if k < p.1 then (k, v) :: p :: ps else p :: insertChanSorted k v ps

/-- Modelled from the spec (§4.2 `add_chan_sort`): inserts a channel keyed
by its computed name; fails with a duplicate-channel error if the name
already exists. -/
def AODev.addChanSort (dev : AODev) (ch : AOChan) : Except String AODev :=
  if containsA dev.chans ch.name then
    .error ("Device " ++ dev.name ++ " already has a channel named " ++ ch.name)
  else
    .ok { dev with chans := insertChanSorted ch.name ch dev.chans }

/-- Modelled from the spec (§4.2 `add_chan_sort`). -/
def DODev.addChanSort (dev : DODev) (ch : DOChan) : Except String DODev :=
  if containsA dev.chans ch.name then
    .error ("Device " ++ dev.name ++ " already has a channel named " ++ ch.name)
  else
    .ok { dev with chans := insertChanSorted ch.name ch dev.chans }

/-- Modelled from the spec (§4.2 `last_instr_end_time`): max over all owned
channels, `0` if none. -/
def AODev.lastInstrEndTime (dev : AODev) : ℚ :=
  dev.chans.foldl (fun m p => max m p.2.lastInstrEndTime) 0

/-- Modelled from the spec (§4.2 `last_instr_end_time`). -/
def DODev.lastInstrEndTime (dev : DODev) : ℚ :=
  dev.chans.foldl (fun m p => max m p.2.lastInstrEndTime) 0

/-- Modelled from the spec (§4.2 `clear_edit_cache`): forwards to every
channel. -/
def AODev.clearEditCache (dev : AODev) : AODev :=
  { dev with chans := dev.chans.map (fun p => (p.1, p.2.clearEditCache)) }

/-- Modelled from the spec (§4.2 `clear_edit_cache`). -/
def DODev.clearEditCache (dev : DODev) : DODev :=
  { dev with chans := dev.chans.map (fun p => (p.1, p.2.clearEditCache)) }

/-- The tagged device sum (`NIDev::AO` / `NIDev::DO`): each device is
exactly one of AO or DO kind. -/
inductive NIDev : Type where
  | AO (dev : AODev)
  | DO (dev : DODev)

/-- Embeds the `CommonHwCfg::hw_cfg` accessor. -/
def NIDev.hwCfg : NIDev → HwCfg
  | .AO dev => dev.hwCfg
  | .DO dev => dev.hwCfg

/-- Embeds mutation through `CommonHwCfg::hw_cfg_mut`. -/
def NIDev.withHwCfg (cfg : HwCfg) : NIDev → NIDev
  | .AO dev => .AO { dev with hwCfg := cfg }
  | .DO dev => .DO { dev with hwCfg := cfg }

/-- Embeds the `samp_rate` accessor. -/
def NIDev.sampRate : NIDev → ℚ
  | .AO dev => dev.sampRate
  | .DO dev => dev.sampRate

/-! ## Streamer -/

/-- Run-controller lifecycle state (§4.4):
`Idle → Configured → Running → Idle`. -/
inductive RunState : Type where
  | idle
  | configured
  | running
  deriving DecidableEq, Repr

/-- The streamer: named devices of both kinds, cross-device settings and
the run state. -/
structure Streamer : Type where
  devs : List (String × NIDev)
  startsLast : Option String
  refClkProvider : Option (String × String)
  runState : RunState

/-- Embeds `Streamer::new`. -/
def Streamer.new : Streamer := ⟨[], none, none, .idle⟩

/-- Modelled from the spec (§4.3): `set_starts_last` is a pure setter on
global run-ordering metadata, not validated at set time. -/
def Streamer.setStartsLast (s : Streamer) (name : Option String) : Streamer :=
  { s with startsLast := name }

/-- Modelled from the spec (§4.3): pure getter. -/
def Streamer.getStartsLast (s : Streamer) : Option String := s.startsLast

/-- Modelled from the spec (§4.3): `set_ref_clk_provider` is a pure setter,
not validated at set time. -/
def Streamer.setRefClkProvider (s : Streamer)
    (provider : Option (String × String)) : Streamer :=
  { s with refClkProvider := provider }

/-- Modelled from the spec (§4.3): pure getter. -/
def Streamer.getRefClkProvider (s : Streamer) : Option (String × String) :=
  s.refClkProvider

/-- Modelled from the spec (§4.4): `cfg_run_` requires run state `Idle` and
transitions to `Configured`; it fails if a run is already configured or
running (buffer allocation is outside this model). -/
def Streamer.cfgRunInner (s : Streamer) (bufsizeMs : ℚ) :
    Except String Streamer :=
  match s.runState with
  | .idle => .ok { s with runState := .configured }
  | _ => .error "Cannot configure run: a run is already configured or running"

/-- Modelled from the spec (§3): device names are unique within a
Streamer; `add_ao_dev` registers the device under its name. -/
def Streamer.addAODevInner (s : Streamer) (dev : AODev) :
    Except String Streamer :=
  if containsA s.devs dev.name then
    .error ("Device name " ++ dev.name ++ " is already registered")
  else
    .ok { s with devs := s.devs ++ [(dev.name, .AO dev)] }

/-- Modelled from the spec (§3): `add_do_dev`. -/
def Streamer.addDODevInner (s : Streamer) (dev : DODev) :
    Except String Streamer :=
  if containsA s.devs dev.name then
    .error ("Device name " ++ dev.name ++ " is already registered")
  else
    .ok { s with devs := s.devs ++ [(dev.name, .DO dev)] }

/-! ## The `StreamerWrap` flattening layer (translated from `flat_wrap.rs`)

Every method is embedded with explicit state passing:
`Streamer → args → Res α × Streamer`, where the second component is the
streamer after the call (mutation through `&mut self` becomes a functional
update; `&self` methods hand the state back untouched). -/

/-- Maps an outcome's value, keeping exceptions and panics (embeds the
surrounding `match`/`?` plumbing of the wrapper). -/
def resMap {α β : Type} (f : α → β) : Res α → Res β
  | .ok a => .ok (f a)
  | .err e => .err e
  | .panic m => .panic m

/-- Replaces the device stored under `name` (embeds mutation through the
`&mut NIDev` returned by `get_dev_mut`). -/
def setDevAt (s : Streamer) (name : String) (dev : NIDev) : Streamer :=
  { s with devs := updateA s.devs name dev }

/-- Rust debug rendering of the registered key list (`{:?}` on
`devs().keys()`). -/
def keysRepr (ks : List String) : String :=
  "[" ++ String.intercalate ", " (ks.map (fun k => "\"" ++ k ++ "\"")) ++ "]"

/-- The `assert_has_dev` failure message: identifies the offending name and
lists the registered device names. -/
def noDevMsg (name : String) (ks : List String) : String :=
  "There is no device with name " ++ name ++ " registered.\n" ++
    "The following device names are registered: " ++ keysRepr ks

/-- Embeds `StreamerWrap::assert_has_dev`. -/
def StreamerWrap.assert_has_dev (s : Streamer) (name : String) : Res Unit :=
  if containsA s.devs name then
    .ok ()
  else
    .err (.keyError (noDevMsg name (keysA s.devs)))

/-- Embeds `StreamerWrap::get_dev`: asserts existence, then unwraps the
lookup (`unwrap` is the `panic` outcome). -/
def StreamerWrap.get_dev (s : Streamer) (name : String) : Res NIDev :=
  match StreamerWrap.assert_has_dev s name with
  | .ok _ =>
      match lookupA s.devs name with
      | some dev => .ok dev
      | none => .panic "called Option::unwrap() on a None value"
  | .err e => .err e
  | .panic m => .panic m

/-- Embeds `StreamerWrap::get_dev_mut` (same check-then-unwrap body; the
caller performs the write-back). -/
def StreamerWrap.get_dev_mut (s : Streamer) (name : String) : Res NIDev :=
  match StreamerWrap.assert_has_dev s name with
  | .ok _ =>
      match lookupA s.devs name with
      | some dev => .ok dev
      | none => .panic "called Option::unwrap() on a None value"
  | .err e => .err e
  | .panic m => .panic m

/-- Embeds `StreamerWrap::add_ao_dev`. -/
def StreamerWrap.add_ao_dev (s : Streamer) (name : String) (sampRate : ℚ) :
    Res Unit × Streamer :=
  match s.addAODevInner (AODev.new name sampRate) with
  | .ok s' => (.ok (), s')
  | .error msg => (.err (.valueError msg), s)

/-- Embeds `StreamerWrap::add_do_dev`. -/
def StreamerWrap.add_do_dev (s : Streamer) (name : String) (sampRate : ℚ) :
    Res Unit × Streamer :=
  match s.addDODevInner (DODev.new name sampRate) with
  | .ok s' => (.ok (), s')
  | .error msg => (.err (.valueError msg), s)

/-- Embeds `StreamerWrap::get_starts_last`. -/
def StreamerWrap.get_starts_last (s : Streamer) : Option String :=
  s.getStartsLast

/-- Embeds `StreamerWrap::set_starts_last` (infallible: no `PyResult` in
the signature). -/
def StreamerWrap.set_starts_last (s : Streamer) (name : Option String) :
    Res Unit × Streamer :=
  (.ok (), s.setStartsLast name)

/-- Embeds `StreamerWrap::get_ref_clk_provider`. -/
def StreamerWrap.get_ref_clk_provider (s : Streamer) :
    Option (String × String) :=
  s.getRefClkProvider

/-- Embeds `StreamerWrap::set_ref_clk_provider` (infallible). -/
def StreamerWrap.set_ref_clk_provider (s : Streamer)
    (provider : Option (String × String)) : Res Unit × Streamer :=
  (.ok (), s.setRefClkProvider provider)

/-- Embeds `StreamerWrap::cfg_run`: delegates to `cfg_run_` and translates
an engine failure into a `PyValueError`. -/
def StreamerWrap.cfg_run (s : Streamer) (bufsizeMs : ℚ) :
    Res Unit × Streamer :=
  match s.cfgRunInner bufsizeMs with
  | .ok s' => (.ok (), s')
  | .error msg => (.err (.valueError msg), s)

/-- Embeds `StreamerWrap::add_ao_chan`. -/
def StreamerWrap.add_ao_chan (s : Streamer) (devName : String)
    (chanIdx : Nat) (dfltVal rstVal : ℚ) : Res Unit × Streamer :=
  match StreamerWrap.get_dev_mut s devName with
  | .ok (.AO dev) =>
      let chan := AOChan.new chanIdx dev.sampRate dfltVal rstVal
      match dev.addChanSort chan with
      | .ok dev' => (.ok (), setDevAt s devName (.AO dev'))
      | .error msg => (.err (.keyError msg), s)
  | .ok (.DO _) =>
      (.err (.keyError
        ("Cannot add analog output channel to non-AO device " ++ devName)), s)
  | .err e => (.err e, s)
  | .panic m => (.panic m, s)

/-- Embeds `StreamerWrap::add_do_chan`. -/
def StreamerWrap.add_do_chan (s : Streamer) (devName : String)
    (portIdx lineIdx : Nat) (dfltVal rstVal : Bool) : Res Unit × Streamer :=
  match StreamerWrap.get_dev_mut s devName with
  | .ok (.DO dev) =>
      let chan := DOChan.new portIdx lineIdx dev.sampRate dfltVal rstVal
      match dev.addChanSort chan with
      | .ok dev' => (.ok (), setDevAt s devName (.DO dev'))
      | .error msg => (.err (.keyError msg), s)
  | .ok (.AO _) =>
      (.err (.keyError
        ("Cannot add digital output channel to non-DO device " ++ devName)), s)
  | .err e => (.err e, s)
  | .panic m => (.panic m, s)

/-- Embeds `StreamerWrap::dev_last_instr_end_time`. -/
def StreamerWrap.dev_last_instr_end_time (s : Streamer) (name : String) :
    Res ℚ × Streamer :=
  (resMap
    (fun typedDev => match typedDev with
      | .AO dev => dev.lastInstrEndTime
      | .DO dev => dev.lastInstrEndTime)
    (StreamerWrap.get_dev s name), s)

/-- Embeds `StreamerWrap::dev_clear_edit_cache`. -/
def StreamerWrap.dev_clear_edit_cache (s : Streamer) (name : String) :
    Res Unit × Streamer :=
  match StreamerWrap.get_dev_mut s name with
  | .ok (.AO dev) => (.ok (), setDevAt s name (.AO dev.clearEditCache))
  | .ok (.DO dev) => (.ok (), setDevAt s name (.DO dev.clearEditCache))
  | .err e => (.err e, s)
  | .panic m => (.panic m, s)

/-- Embeds `StreamerWrap::dev_get_samp_rate`. -/
def StreamerWrap.dev_get_samp_rate (s : Streamer) (name : String) :
    Res ℚ × Streamer :=
  (resMap NIDev.sampRate (StreamerWrap.get_dev s name), s)

/-- Embeds `StreamerWrap::dev_get_start_trig_in`. -/
def StreamerWrap.dev_get_start_trig_in (s : Streamer) (name : String) :
    Res (Option String) × Streamer :=
  (resMap (fun niDev => niDev.hwCfg.startTrigIn)
    (StreamerWrap.get_dev s name), s)

/-- Embeds `StreamerWrap::dev_set_start_trig_in`. -/
def StreamerWrap.dev_set_start_trig_in (s : Streamer) (name : String)
    (term : Option String) : Res Unit × Streamer :=
  match StreamerWrap.get_dev_mut s name with
  | .ok niDev =>
      (.ok (), setDevAt s name
        (niDev.withHwCfg { niDev.hwCfg with startTrigIn := term }))
  | .err e => (.err e, s)
  | .panic m => (.panic m, s)

/-- Embeds `StreamerWrap::dev_get_start_trig_out`. -/
def StreamerWrap.dev_get_start_trig_out (s : Streamer) (name : String) :
    Res (Option String) × Streamer :=
  (resMap (fun niDev => niDev.hwCfg.startTrigOut)
    (StreamerWrap.get_dev s name), s)

/-- Embeds `StreamerWrap::dev_set_start_trig_out`. -/
def StreamerWrap.dev_set_start_trig_out (s : Streamer) (name : String)
    (term : Option String) : Res Unit × Streamer :=
  match StreamerWrap.get_dev_mut s name with
  | .ok niDev =>
      (.ok (), setDevAt s name
        (niDev.withHwCfg { niDev.hwCfg with startTrigOut := term }))
  | .err e => (.err e, s)
  | .panic m => (.panic m, s)

/-- Embeds `StreamerWrap::dev_get_samp_clk_in`. -/
def StreamerWrap.dev_get_samp_clk_in (s : Streamer) (name : String) :
    Res (Option String) × Streamer :=
  (resMap (fun niDev => niDev.hwCfg.sampClkIn)
    (StreamerWrap.get_dev s name), s)

/-- Embeds `StreamerWrap::dev_set_samp_clk_in`. -/
def StreamerWrap.dev_set_samp_clk_in (s : Streamer) (name : String)
    (term : Option String) : Res Unit × Streamer :=
  match StreamerWrap.get_dev_mut s name with
  | .ok niDev =>
      (.ok (), setDevAt s name
        (niDev.withHwCfg { niDev.hwCfg with sampClkIn := term }))
  | .err e => (.err e, s)
  | .panic m => (.panic m, s)

/-- Embeds `StreamerWrap::dev_get_samp_clk_out`. -/
def StreamerWrap.dev_get_samp_clk_out (s : Streamer) (name : String) :
    Res (Option String) × Streamer :=
  (resMap (fun niDev => niDev.hwCfg.sampClkOut)
    (StreamerWrap.get_dev s name), s)

/-- Embeds `StreamerWrap::dev_set_samp_clk_out`. -/
def StreamerWrap.dev_set_samp_clk_out (s : Streamer) (name : String)
    (term : Option String) : Res Unit × Streamer :=
  match StreamerWrap.get_dev_mut s name with
  | .ok niDev =>
      (.ok (), setDevAt s name
        (niDev.withHwCfg { niDev.hwCfg with sampClkOut := term }))
  | .err e => (.err e, s)
  | .panic m => (.panic m, s)

/-- Embeds `StreamerWrap::dev_get_ref_clk_in`. -/
def StreamerWrap.dev_get_ref_clk_in (s : Streamer) (name : String) :
    Res (Option String) × Streamer :=
  (resMap (fun niDev => niDev.hwCfg.refClkIn)
    (StreamerWrap.get_dev s name), s)

/-- Embeds `StreamerWrap::dev_set_ref_clk_in`. -/
def StreamerWrap.dev_set_ref_clk_in (s : Streamer) (name : String)
    (term : Option String) : Res Unit × Streamer :=
  match StreamerWrap.get_dev_mut s name with
  | .ok niDev =>
      (.ok (), setDevAt s name
        (niDev.withHwCfg { niDev.hwCfg with refClkIn := term }))
  | .err e => (.err e, s)
  | .panic m => (.panic m, s)

/-- Embeds `StreamerWrap::dev_get_min_bufwrite_timeout`. -/
def StreamerWrap.dev_get_min_bufwrite_timeout (s : Streamer) (name : String) :
    Res (Option ℚ) × Streamer :=
  (resMap (fun niDev => niDev.hwCfg.minBufwriteTimeout)
    (StreamerWrap.get_dev s name), s)

/-- Embeds `StreamerWrap::dev_set_min_bufwrite_timeout`. -/
def StreamerWrap.dev_set_min_bufwrite_timeout (s : Streamer) (name : String)
    (minTimeout : Option ℚ) : Res Unit × Streamer :=
  match StreamerWrap.get_dev_mut s name with
  | .ok niDev =>
      (.ok (), setDevAt s name
        (niDev.withHwCfg { niDev.hwCfg with minBufwriteTimeout := minTimeout }))
  | .err e => (.err e, s)
  | .panic m => (.panic m, s)

/-- Embeds `StreamerWrap::get_ao_chan`: looks the channel up under the key
`format!("ao{chan_idx}")`. -/
def StreamerWrap.get_ao_chan (s : Streamer) (devName : String)
    (chanIdx : Nat) : Res AOChan :=
  match StreamerWrap.get_dev s devName with
  | .ok (.AO dev) =>
      let chanName := "ao" ++ toString chanIdx
      match lookupA dev.chans chanName with
      | some chan => .ok chan
      | none =>
          .err (.keyError ("AO device " ++ devName ++
            " does not have a channel " ++ chanName ++ " registered"))
  | .ok (.DO _) =>
      .err (.keyError ("Device " ++ devName ++
        " is not an AO device and cannot have AO channels"))
  | .err e => .err e
  | .panic m => .panic m

/-- Embeds `StreamerWrap::get_do_chan`: looks the channel up under the key
`format!("port{port}/line{line}")`. -/
def StreamerWrap.get_do_chan (s : Streamer) (devName : String)
    (port line : Nat) : Res DOChan :=
  match StreamerWrap.get_dev s devName with
  | .ok (.DO dev) =>
      let chanName := "port" ++ toString port ++ "/line" ++ toString line
      match lookupA dev.chans chanName with
      | some chan => .ok chan
      | none =>
          .err (.keyError ("DO device " ++ devName ++
            " does not have a channel " ++ chanName ++ " registered"))
  | .ok (.AO _) =>
      .err (.keyError ("Device " ++ devName ++
        " is not a DO device and cannot have DO channels"))
  | .err e => .err e
  | .panic m => .panic m

/-- Embeds `StreamerWrap::ao_chan_name`. -/
def StreamerWrap.ao_chan_name (s : Streamer) (devName : String)
    (chanIdx : Nat) : Res String × Streamer :=
  (resMap AOChan.name (StreamerWrap.get_ao_chan s devName chanIdx), s)

/-- Embeds `StreamerWrap::do_chan_name`. -/
def StreamerWrap.do_chan_name (s : Streamer) (devName : String)
    (port line : Nat) : Res String × Streamer :=
  (resMap DOChan.name (StreamerWrap.get_do_chan s devName port line), s)

/-- Embeds `StreamerWrap::ao_chan_dflt_val`. -/
def StreamerWrap.ao_chan_dflt_val (s : Streamer) (devName : String)
    (chanIdx : Nat) : Res ℚ × Streamer :=
  (resMap AOChan.dfltVal (StreamerWrap.get_ao_chan s devName chanIdx), s)

/-- Embeds `StreamerWrap::do_chan_dflt_val`. -/
def StreamerWrap.do_chan_dflt_val (s : Streamer) (devName : String)
    (port line : Nat) : Res Bool × Streamer :=
  (resMap DOChan.dfltVal (StreamerWrap.get_do_chan s devName port line), s)

/-- Embeds `StreamerWrap::ao_chan_rst_val`. -/
def StreamerWrap.ao_chan_rst_val (s : Streamer) (devName : String)
    (chanIdx : Nat) : Res ℚ × Streamer :=
  (resMap AOChan.rstVal (StreamerWrap.get_ao_chan s devName chanIdx), s)

/-- Embeds `StreamerWrap::do_chan_rst_val`. -/
def StreamerWrap.do_chan_rst_val (s : Streamer) (devName : String)
    (port line : Nat) : Res Bool × Streamer :=
  (resMap DOChan.rstVal (StreamerWrap.get_do_chan s devName port line), s)

/-- Embeds `StreamerWrap::chan_last_instr_end_time`: takes the raw channel
name and unwraps the lookup with `.expect(...)` — the `panic` outcome —
when the channel is missing. -/
def StreamerWrap.chan_last_instr_end_time (s : Streamer)
    (devName chanName : String) : Res ℚ × Streamer :=
  (match StreamerWrap.get_dev s devName with
   | .ok (.AO dev) =>
       match lookupA dev.chans chanName with
       | some chan => .ok chan.lastInstrEndTime
       | none =>
           .panic ("Channel " ++ chanName ++ " not found in device " ++ devName)
   | .ok (.DO dev) =>
       match lookupA dev.chans chanName with
       | some chan => .ok chan.lastInstrEndTime
       | none =>
           .panic ("Channel " ++ chanName ++ " not found in device " ++ devName)
   | .err e => .err e
   | .panic m => .panic m, s)

/-- Embeds `StreamerWrap::chan_clear_edit_cache`: same raw-name lookup
unwrapped with `.expect(...)`. -/
def StreamerWrap.chan_clear_edit_cache (s : Streamer)
    (devName chanName : String) : Res Unit × Streamer :=
  match StreamerWrap.get_dev_mut s devName with
  | .ok (.AO dev) =>
      match lookupA dev.chans chanName with
      | some chan =>
          (.ok (), setDevAt s devName
            (.AO { dev with
              chans := updateA dev.chans chanName chan.clearEditCache }))
      | none =>
          (.panic ("Channel " ++ chanName ++ " not found in device " ++ devName),
            s)
  | .ok (.DO dev) =>
      match lookupA dev.chans chanName with
      | some chan =>
          (.ok (), setDevAt s devName
            (.DO { dev with
              chans := updateA dev.chans chanName chan.clearEditCache }))
      | none =>
          (.panic ("Channel " ++ chanName ++ " not found in device " ++ devName),
            s)
  | .err e => (.err e, s)
  | .panic m => (.panic m, s)

/-- Embeds `StreamerWrap::ao_chan_add_instr` (`get_ao_chan_mut` — the same
lookups and errors as `get_ao_chan` — is inlined, the mutation becoming a
functional write-back). -/
def StreamerWrap.ao_chan_add_instr (s : Streamer) (devName : String)
    (chanIdx : Nat) (func : ℚ → ℚ) (t : ℚ) (durSpec : Option (ℚ × Bool)) :
    Res Unit × Streamer :=
  match StreamerWrap.get_dev_mut s devName with
  | .ok (.AO dev) =>
      let chanName := "ao" ++ toString chanIdx
      match lookupA dev.chans chanName with
      | some chan =>
          match chan.addInstr func t durSpec with
          | .ok chan' =>
              (.ok (), setDevAt s devName
                (.AO { dev with chans := updateA dev.chans chanName chan' }))
          | .error msg => (.err (.valueError msg), s)
      | none =>
          (.err (.keyError ("AO device " ++ devName ++
            " does not have a channel " ++ chanName ++ " registered")), s)
  | .ok (.DO _) =>
      (.err (.keyError ("Device " ++ devName ++
        " is not an AO device and cannot have AO channels")), s)
  | .err e => (.err e, s)
  | .panic m => (.panic m, s)

/-- Embeds `StreamerWrap::do_chan_add_instr` (`get_do_chan_mut` inlined). -/
def StreamerWrap.do_chan_add_instr (s : Streamer) (devName : String)
    (port line : Nat) (func : ℚ → Bool) (t : ℚ)
    (durSpec : Option (ℚ × Bool)) : Res Unit × Streamer :=
  match StreamerWrap.get_dev_mut s devName with
  | .ok (.DO dev) =>
      let chanName := "port" ++ toString port ++ "/line" ++ toString line
      match lookupA dev.chans chanName with
      | some chan =>
          match chan.addInstr func t durSpec with
          | .ok chan' =>
              (.ok (), setDevAt s devName
                (.DO { dev with chans := updateA dev.chans chanName chan' }))
          | .error msg => (.err (.valueError msg), s)
      | none =>
          (.err (.keyError ("DO device " ++ devName ++
            " does not have a channel " ++ chanName ++ " registered")), s)
  | .ok (.AO _) =>
      (.err (.keyError ("Device " ++ devName ++
        " is not a DO device and cannot have DO channels")), s)
  | .err e => (.err e, s)
  | .panic m => (.panic m, s)

/-- Embeds `StreamerWrap::ao_chan_calc_nsamps`. -/
def StreamerWrap.ao_chan_calc_nsamps (s : Streamer) (devName : String)
    (chanIdx : Nat) (nSamps : Nat) (startTime endTime : Option ℚ) :
    Res (List ℚ) × Streamer :=
  (match StreamerWrap.get_ao_chan s devName chanIdx with
   | .ok chan =>
       match chan.calcNsamps nSamps startTime endTime with
       | .ok sampVec => .ok sampVec
       | .error msg => .err (.valueError msg)
   | .err e => .err e
   | .panic m => .panic m, s)

/-- Embeds `StreamerWrap::do_chan_calc_nsamps`. -/
def StreamerWrap.do_chan_calc_nsamps (s : Streamer) (devName : String)
    (port line : Nat) (nSamps : Nat) (startTime endTime : Option ℚ) :
    Res (List Bool) × Streamer :=
  (match StreamerWrap.get_do_chan s devName port line with
   | .ok chan =>
       match chan.calcNsamps nSamps startTime endTime with
       | .ok sampVec => .ok sampVec
       | .error msg => .err (.valueError msg)
   | .err e => .err e
   | .panic m => .panic m, s)

/-! ## Helper lemmas -/

theorem get_dev_not_found (s : Streamer) (name : String)
    (h : containsA s.devs name = false) :
    StreamerWrap.get_dev s name =
      .err (.keyError (noDevMsg name (keysA s.devs))) := by
  simp [StreamerWrap.get_dev, StreamerWrap.assert_has_dev, h]

theorem get_dev_mut_not_found (s : Streamer) (name : String)
    (h : containsA s.devs name = false) :
    StreamerWrap.get_dev_mut s name =
      .err (.keyError (noDevMsg name (keysA s.devs))) := by
  simp [StreamerWrap.get_dev_mut, StreamerWrap.assert_has_dev, h]

theorem get_dev_ok_of_lookup (s : Streamer) (name : String) (d : NIDev)
    (h : lookupA s.devs name = some d) :
    StreamerWrap.get_dev s name = .ok d := by
  have hc : containsA s.devs name = true :=
    (containsA_iff_lookupA_isSome s.devs name).mpr (by simp [h])
  simp [StreamerWrap.get_dev, StreamerWrap.assert_has_dev, hc, h]

theorem get_dev_mut_ok_of_lookup (s : Streamer) (name : String) (d : NIDev)
    (h : lookupA s.devs name = some d) :
    StreamerWrap.get_dev_mut s name = .ok d := by
  have hc : containsA s.devs name = true :=
    (containsA_iff_lookupA_isSome s.devs name).mpr (by simp [h])
  simp [StreamerWrap.get_dev_mut, StreamerWrap.assert_has_dev, hc, h]

theorem get_dev_mut_ok_implies (s : Streamer) (name : String) (d : NIDev)
    (h : StreamerWrap.get_dev_mut s name = .ok d) :
    lookupA s.devs name = some d := by
  by_cases hc : containsA s.devs name
  · obtain ⟨v, hv⟩ := lookupA_eq_some_of_containsA s.devs name hc
    simp [StreamerWrap.get_dev_mut, StreamerWrap.assert_has_dev, hc, hv] at h
    simpa [hv] using congrArg some h
  · simp [StreamerWrap.get_dev_mut, StreamerWrap.assert_has_dev,
      Bool.of_not_eq_true hc] at h

theorem fst_update_entry {β : Type} (p : String × β) (k : String) (v : β) :
    ((if p.1 == k then (p.1, v) else p) : String × β).1 = p.1 := by
  split <;> rfl

theorem containsA_updateA {β : Type} (l : List (String × β))
    (k : String) (v : β) (k2 : String) :
    containsA (updateA l k v) k2 = containsA l k2 := by
  induction l with
  | nil => rfl
  | cons p t ih =>
      simp only [updateA, List.map_cons, containsA, List.any_cons] at ih ⊢
      rw [fst_update_entry, ih]

theorem lookupA_insertChanSorted_fresh {β : Type} (l : List (String × β))
    (k : String) (v : β) (h : containsA l k = false) :
    lookupA (insertChanSorted k v l) k = some v := by
  induction l with
  | nil => simp [insertChanSorted, lookupA, List.find?]
  | cons p t ih =>
      simp only [containsA, List.any_cons, Bool.or_eq_false_iff] at h
      by_cases hk : k < p.1
      · simp [insertChanSorted, hk, lookupA, List.find?]
      · have ht : lookupA (insertChanSorted k v t) k = some v := by
          apply ih
          simpa [containsA] using h.2
        simpa [insertChanSorted, hk, lookupA, List.find?, h.1] using ht

theorem mem_insertInstr {V : Type} (x a : Instr V) (l : List (Instr V))
    (h : a ∈ insertInstr x l) : a = x ∨ a ∈ l := by
  induction l with
  | nil => simpa [insertInstr] using h
  | cons y ys ih =>
      by_cases hx : x.start ≤ y.start
      · simpa [insertInstr, hx] using h
      · simp only [insertInstr, hx, if_false, List.mem_cons] at h
        rcases h with h | h
        · exact Or.inr (by simp [h])
        · rcases ih h with h | h
          · exact Or.inl h
          · exact Or.inr (by simp [h])

theorem NIDev.hwCfg_withHwCfg (cfg : HwCfg) (d : NIDev) :
    (d.withHwCfg cfg).hwCfg = cfg := by
  cases d <;> rfl

theorem get_dev_setDevAt (s : Streamer) (name : String) (d : NIDev)
    (hc : containsA s.devs name = true) :
    StreamerWrap.get_dev (setDevAt s name d) name = .ok d := by
  apply get_dev_ok_of_lookup
  exact lookupA_updateA_self s.devs name d hc

/-! ## Concrete streamers used by witnesses and counterexamples -/

/-- Constant-zero analog function value, used to populate witnesses. -/
def zeroFA : ℚ → ℚ := fun _ => 0

/-- Constant-false digital function value. -/
def zeroFD : ℚ → Bool := fun _ => false

/-- A streamer holding one AO device `Dev1` and one DO device `Dev2`,
neither with any channels, built through the wrapper API. -/
def stW : Streamer :=
  (StreamerWrap.add_do_dev
    ((StreamerWrap.add_ao_dev Streamer.new "Dev1" 1000).2) "Dev2" 10000000).2

/-- `stW` with the AO channel `ao0` and the DO channel `port0/line0`
registered. -/
def stW1 : Streamer :=
  (StreamerWrap.add_do_chan
    ((StreamerWrap.add_ao_chan stW "Dev1" 0 0 0).2) "Dev2" 0 0 false false).2

/-- A streamer whose run state is `Configured` (a run has already been
configured). -/
def stCfg : Streamer :=
  { devs := [], startsLast := none, refClkProvider := none,
    runState := .configured }

/-! ## Claims -/

/-- Claim C10: in `get_dev` and `get_dev_mut` the `unwrap` after a
successful `assert_has_dev` is unreachable as a failure: for every streamer
and device name, neither function ever panics. -/
theorem C10_get_dev_unwrap_never_panics (s : Streamer) (name : String) :
    (StreamerWrap.get_dev s name).isPanic = false ∧
    (StreamerWrap.get_dev_mut s name).isPanic = false := by
  by_cases hc : containsA s.devs name
  · obtain ⟨d, hd⟩ := lookupA_eq_some_of_containsA s.devs name hc
    rw [get_dev_ok_of_lookup s name d hd, get_dev_mut_ok_of_lookup s name d hd]
    exact ⟨rfl, rfl⟩
  · have hc' : containsA s.devs name = false := Bool.of_not_eq_true hc
    rw [get_dev_not_found s name hc', get_dev_mut_not_found s name hc']
    exact ⟨rfl, rfl⟩

/-- Claim C8: `set_starts_last` and `set_ref_clk_provider` never fail at
set time, for any argument (registered or not), and the matching getters
afterwards return exactly the value that was set. -/
theorem C8_global_setters_total_roundtrip (s : Streamer)
    (x : Option String) (p : Option (String × String)) :
    (StreamerWrap.set_starts_last s x).1 = .ok () ∧
    StreamerWrap.get_starts_last (StreamerWrap.set_starts_last s x).2 = x ∧
    (StreamerWrap.set_ref_clk_provider s p).1 = .ok () ∧
    StreamerWrap.get_ref_clk_provider
      (StreamerWrap.set_ref_clk_provider s p).2 = p :=
  ⟨rfl, rfl, rfl, rfl⟩

/-- Claim C6: `ao_chan_calc_nsamps` and `do_chan_calc_nsamps` are
side-effect-free (the streamer state after the call is the input state)
and deterministic (a second call with the same arguments on the state left
by the first returns the same outcome). -/
theorem C6_calc_nsamps_pure_deterministic (s : Streamer) (devName : String)
    (chanIdx port line nSamps : Nat) (startTime endTime : Option ℚ) :
    (StreamerWrap.ao_chan_calc_nsamps s devName chanIdx nSamps
      startTime endTime).2 = s ∧
    (StreamerWrap.ao_chan_calc_nsamps
      (StreamerWrap.ao_chan_calc_nsamps s devName chanIdx nSamps
        startTime endTime).2 devName chanIdx nSamps startTime endTime).1 =
      (StreamerWrap.ao_chan_calc_nsamps s devName chanIdx nSamps
        startTime endTime).1 ∧
    (StreamerWrap.do_chan_calc_nsamps s devName port line nSamps
      startTime endTime).2 = s ∧
    (StreamerWrap.do_chan_calc_nsamps
      (StreamerWrap.do_chan_calc_nsamps s devName port line nSamps
        startTime endTime).2 devName port line nSamps startTime endTime).1 =
      (StreamerWrap.do_chan_calc_nsamps s devName port line nSamps
        startTime endTime).1 :=
  ⟨rfl, rfl, rfl, rfl⟩

/-- Claim C2, counterexample: with a run already configured, `cfg_run`
does fail, but the failure reaching the caller is a `PyValueError`, not a
`PyRuntimeError` as the claim states. -/
theorem C2_counterexample_cfg_run_raises_value_error :
    stCfg.runState = .configured ∧
    (StreamerWrap.cfg_run stCfg 10).1 =
      .err (.valueError
        "Cannot configure run: a run is already configured or running") ∧
    ((StreamerWrap.cfg_run stCfg 10).1.isErr = true) ∧
    (PyErr.valueError
      "Cannot configure run: a run is already configured or running"
      ).isRuntimeError = false :=
  ⟨rfl, rfl, rfl, rfl⟩

/-- Claim C2 as amended: when `cfg_run` is called while the run state is
not `Idle`, it fails, and the failure is surfaced to the caller as a
`ValueError` (the wrapper maps the engine's run-state violation through
`PyValueError`), leaving the streamer unchanged. -/
theorem C2_amended_cfg_run_not_idle_value_error (s : Streamer) (b : ℚ)
    (h : s.runState ≠ .idle) :
    StreamerWrap.cfg_run s b =
      (.err (.valueError
        "Cannot configure run: a run is already configured or running"), s) := by
  cases hr : s.runState with
  | idle => exact absurd hr h
  | configured => simp [StreamerWrap.cfg_run, Streamer.cfgRunInner, hr]
  | running => simp [StreamerWrap.cfg_run, Streamer.cfgRunInner, hr]

/-- Witness for the amended claim C2 at the concrete configured streamer. -/
theorem C2_amended_witness :
    stCfg.runState ≠ .idle ∧
    StreamerWrap.cfg_run stCfg 10 =
      (.err (.valueError
        "Cannot configure run: a run is already configured or running"),
        stCfg) :=
  ⟨by decide, C2_amended_cfg_run_not_idle_value_error stCfg 10 (by decide)⟩

/-- Claim C1, evaluation at the failing inputs: with device `Dev1` (AO)
and `Dev2` (DO) registered but the queried channel missing,
`chan_last_instr_end_time` and `chan_clear_edit_cache` panic through
`.expect` instead of returning a typed error. -/
theorem C1_chan_methods_panic_on_missing_channel :
    (StreamerWrap.chan_last_instr_end_time stW "Dev1" "ao0").1 =
      .panic "Channel ao0 not found in device Dev1" ∧
    (StreamerWrap.chan_clear_edit_cache stW "Dev1" "ao0").1 =
      .panic "Channel ao0 not found in device Dev1" ∧
    (StreamerWrap.chan_last_instr_end_time stW "Dev2" "port0/line7").1 =
      .panic "Channel port0/line7 not found in device Dev2" ∧
    (StreamerWrap.chan_clear_edit_cache stW "Dev2" "port0/line7").1 =
      .panic "Channel port0/line7 not found in device Dev2" :=
  ⟨rfl, rfl, rfl, rfl⟩

/-- Claim C7: for every registered device name and every value (including
`none`), each hardware-setting setter succeeds with no validation of the
value, and the matching getter called afterwards returns exactly that
value. -/
theorem C7_hw_settings_set_get_roundtrip (s : Streamer) (name : String)
    (h : containsA s.devs name = true)
    (t1 t2 t3 t4 t5 : Option String) (w : Option ℚ) :
    ((StreamerWrap.dev_set_start_trig_in s name t1).1 = .ok ()) ∧
    ((StreamerWrap.dev_get_start_trig_in
      (StreamerWrap.dev_set_start_trig_in s name t1).2 name).1 = .ok t1) ∧
    ((StreamerWrap.dev_set_start_trig_out s name t2).1 = .ok ()) ∧
    ((StreamerWrap.dev_get_start_trig_out
      (StreamerWrap.dev_set_start_trig_out s name t2).2 name).1 = .ok t2) ∧
    ((StreamerWrap.dev_set_samp_clk_in s name t3).1 = .ok ()) ∧
    ((StreamerWrap.dev_get_samp_clk_in
      (StreamerWrap.dev_set_samp_clk_in s name t3).2 name).1 = .ok t3) ∧
    ((StreamerWrap.dev_set_samp_clk_out s name t4).1 = .ok ()) ∧
    ((StreamerWrap.dev_get_samp_clk_out
      (StreamerWrap.dev_set_samp_clk_out s name t4).2 name).1 = .ok t4) ∧
    ((StreamerWrap.dev_set_ref_clk_in s name t5).1 = .ok ()) ∧
    ((StreamerWrap.dev_get_ref_clk_in
      (StreamerWrap.dev_set_ref_clk_in s name t5).2 name).1 = .ok t5) ∧
    ((StreamerWrap.dev_set_min_bufwrite_timeout s name w).1 = .ok ()) ∧
    ((StreamerWrap.dev_get_min_bufwrite_timeout
      (StreamerWrap.dev_set_min_bufwrite_timeout s name w).2 name).1 =
        .ok w) := by
  obtain ⟨d, hd⟩ := lookupA_eq_some_of_containsA s.devs name h
  have hgm := get_dev_mut_ok_of_lookup s name d hd
  refine ⟨?_, ?_, ?_, ?_, ?_, ?_, ?_, ?_, ?_, ?_, ?_, ?_⟩
  · simp [StreamerWrap.dev_set_start_trig_in, hgm]
  · simp [StreamerWrap.dev_set_start_trig_in, hgm,
      StreamerWrap.dev_get_start_trig_in,
      get_dev_setDevAt s name
        (d.withHwCfg { d.hwCfg with startTrigIn := t1 }) h,
      resMap, NIDev.hwCfg_withHwCfg]
  · simp [StreamerWrap.dev_set_start_trig_out, hgm]
  · simp [StreamerWrap.dev_set_start_trig_out, hgm,
      StreamerWrap.dev_get_start_trig_out,
      get_dev_setDevAt s name
        (d.withHwCfg { d.hwCfg with startTrigOut := t2 }) h,
      resMap, NIDev.hwCfg_withHwCfg]
  · simp [StreamerWrap.dev_set_samp_clk_in, hgm]
  · simp [StreamerWrap.dev_set_samp_clk_in, hgm,
      StreamerWrap.dev_get_samp_clk_in,
      get_dev_setDevAt s name
        (d.withHwCfg { d.hwCfg with sampClkIn := t3 }) h,
      resMap, NIDev.hwCfg_withHwCfg]
  · simp [StreamerWrap.dev_set_samp_clk_out, hgm]
  · simp [StreamerWrap.dev_set_samp_clk_out, hgm,
      StreamerWrap.dev_get_samp_clk_out,
      get_dev_setDevAt s name
        (d.withHwCfg { d.hwCfg with sampClkOut := t4 }) h,
      resMap, NIDev.hwCfg_withHwCfg]
  · simp [StreamerWrap.dev_set_ref_clk_in, hgm]
  · simp [StreamerWrap.dev_set_ref_clk_in, hgm,
      StreamerWrap.dev_get_ref_clk_in,
      get_dev_setDevAt s name
        (d.withHwCfg { d.hwCfg with refClkIn := t5 }) h,
      resMap, NIDev.hwCfg_withHwCfg]
  · simp [StreamerWrap.dev_set_min_bufwrite_timeout, hgm]
  · simp [StreamerWrap.dev_set_min_bufwrite_timeout, hgm,
      StreamerWrap.dev_get_min_bufwrite_timeout,
      get_dev_setDevAt s name
        (d.withHwCfg { d.hwCfg with minBufwriteTimeout := w }) h,
      resMap, NIDev.hwCfg_withHwCfg]

/-- Witness for claim C7 on the concrete streamer `stW` and device
`Dev1`. -/
theorem C7_witness :
    containsA stW.devs "Dev1" = true ∧
    ((StreamerWrap.dev_set_start_trig_in stW "Dev1" (some "PFI0")).1 =
      .ok ()) ∧
    ((StreamerWrap.dev_get_start_trig_in
      (StreamerWrap.dev_set_start_trig_in stW "Dev1" (some "PFI0")).2
        "Dev1").1 = .ok (some "PFI0")) :=
  have hc : containsA stW.devs "Dev1" = true := by rfl
  have hall := C7_hw_settings_set_get_roundtrip stW "Dev1" hc
    (some "PFI0") none none none none none
  ⟨hc, hall.1, hall.2.1⟩

/-- The outcome every name-taking operation must produce for an
unregistered device name: the `assert_has_dev` key error — whose message
carries the offending name and the list of registered names — with the
streamer left unchanged. -/
def NoDevOutcome {α : Type} (s : Streamer) (name : String)
    (r : Res α × Streamer) : Prop :=
  r = (.err (.keyError (noDevMsg name (keysA s.devs))), s)

/-- The conclusion of claim C3, for one choice of the remaining arguments:
every operation keyed by a device name fails with the not-found key error
and leaves the streamer unchanged. -/
def UnknownDevBehavior (s : Streamer) (name : String)
    (chanIdx port line nSamps : Nat) (chanName : String)
    (dfltA rstA : ℚ) (dfltD rstD : Bool) (term : Option String)
    (timeout : Option ℚ) (funcA : ℚ → ℚ) (funcD : ℚ → Bool) (t : ℚ)
    (durSpec : Option (ℚ × Bool)) (startTime endTime : Option ℚ) : Prop :=
  (StreamerWrap.get_dev s name =
    .err (.keyError (noDevMsg name (keysA s.devs)))) ∧
  (StreamerWrap.get_dev_mut s name =
    .err (.keyError (noDevMsg name (keysA s.devs)))) ∧
  NoDevOutcome s name (StreamerWrap.add_ao_chan s name chanIdx dfltA rstA) ∧
  NoDevOutcome s name
    (StreamerWrap.add_do_chan s name port line dfltD rstD) ∧
  NoDevOutcome s name (StreamerWrap.dev_last_instr_end_time s name) ∧
  NoDevOutcome s name (StreamerWrap.dev_clear_edit_cache s name) ∧
  NoDevOutcome s name (StreamerWrap.dev_get_samp_rate s name) ∧
  NoDevOutcome s name (StreamerWrap.dev_get_start_trig_in s name) ∧
  NoDevOutcome s name (StreamerWrap.dev_set_start_trig_in s name term) ∧
  NoDevOutcome s name (StreamerWrap.dev_get_start_trig_out s name) ∧
  NoDevOutcome s name (StreamerWrap.dev_set_start_trig_out s name term) ∧
  NoDevOutcome s name (StreamerWrap.dev_get_samp_clk_in s name) ∧
  NoDevOutcome s name (StreamerWrap.dev_set_samp_clk_in s name term) ∧
  NoDevOutcome s name (StreamerWrap.dev_get_samp_clk_out s name) ∧
  NoDevOutcome s name (StreamerWrap.dev_set_samp_clk_out s name term) ∧
  NoDevOutcome s name (StreamerWrap.dev_get_ref_clk_in s name) ∧
  NoDevOutcome s name (StreamerWrap.dev_set_ref_clk_in s name term) ∧
  NoDevOutcome s name (StreamerWrap.dev_get_min_bufwrite_timeout s name) ∧
  NoDevOutcome s name
    (StreamerWrap.dev_set_min_bufwrite_timeout s name timeout) ∧
  NoDevOutcome s name (StreamerWrap.ao_chan_name s name chanIdx) ∧
  NoDevOutcome s name (StreamerWrap.do_chan_name s name port line) ∧
  NoDevOutcome s name (StreamerWrap.ao_chan_dflt_val s name chanIdx) ∧
  NoDevOutcome s name (StreamerWrap.do_chan_dflt_val s name port line) ∧
  NoDevOutcome s name (StreamerWrap.ao_chan_rst_val s name chanIdx) ∧
  NoDevOutcome s name (StreamerWrap.do_chan_rst_val s name port line) ∧
  NoDevOutcome s name
    (StreamerWrap.chan_last_instr_end_time s name chanName) ∧
  NoDevOutcome s name (StreamerWrap.chan_clear_edit_cache s name chanName) ∧
  NoDevOutcome s name
    (StreamerWrap.ao_chan_add_instr s name chanIdx funcA t durSpec) ∧
  NoDevOutcome s name
    (StreamerWrap.do_chan_add_instr s name port line funcD t durSpec) ∧
  NoDevOutcome s name
    (StreamerWrap.ao_chan_calc_nsamps s name chanIdx nSamps
      startTime endTime) ∧
  NoDevOutcome s name
    (StreamerWrap.do_chan_calc_nsamps s name port line nSamps
      startTime endTime)

/-- Claim C3: every operation that takes a device name fails on an
unregistered name with the not-found key error naming the offending name
and listing the registered names, leaving the streamer unchanged. -/
theorem C3_unknown_dev_name_key_error (s : Streamer) (name : String)
    (h : containsA s.devs name = false)
    (chanIdx port line nSamps : Nat) (chanName : String)
    (dfltA rstA : ℚ) (dfltD rstD : Bool) (term : Option String)
    (timeout : Option ℚ) (funcA : ℚ → ℚ) (funcD : ℚ → Bool) (t : ℚ)
    (durSpec : Option (ℚ × Bool)) (startTime endTime : Option ℚ) :
    UnknownDevBehavior s name chanIdx port line nSamps chanName dfltA rstA
      dfltD rstD term timeout funcA funcD t durSpec startTime endTime := by
  have hg := get_dev_not_found s name h
  have hgm := get_dev_mut_not_found s name h
  refine ⟨hg, hgm, ?_, ?_, ?_, ?_, ?_, ?_, ?_, ?_, ?_, ?_, ?_, ?_, ?_, ?_,
    ?_, ?_, ?_, ?_, ?_, ?_, ?_, ?_, ?_, ?_, ?_, ?_, ?_, ?_, ?_⟩
  · simp [NoDevOutcome, StreamerWrap.add_ao_chan, hgm]
  · simp [NoDevOutcome, StreamerWrap.add_do_chan, hgm]
  · simp [NoDevOutcome, StreamerWrap.dev_last_instr_end_time, hg, resMap]
  · simp [NoDevOutcome, StreamerWrap.dev_clear_edit_cache, hgm]
  · simp [NoDevOutcome, StreamerWrap.dev_get_samp_rate, hg, resMap]
  · simp [NoDevOutcome, StreamerWrap.dev_get_start_trig_in, hg, resMap]
  · simp [NoDevOutcome, StreamerWrap.dev_set_start_trig_in, hgm]
  · simp [NoDevOutcome, StreamerWrap.dev_get_start_trig_out, hg, resMap]
  · simp [NoDevOutcome, StreamerWrap.dev_set_start_trig_out, hgm]
  · simp [NoDevOutcome, StreamerWrap.dev_get_samp_clk_in, hg, resMap]
  · simp [NoDevOutcome, StreamerWrap.dev_set_samp_clk_in, hgm]
  · simp [NoDevOutcome, StreamerWrap.dev_get_samp_clk_out, hg, resMap]
  · simp [NoDevOutcome, StreamerWrap.dev_set_samp_clk_out, hgm]
  · simp [NoDevOutcome, StreamerWrap.dev_get_ref_clk_in, hg, resMap]
  · simp [NoDevOutcome, StreamerWrap.dev_set_ref_clk_in, hgm]
  · simp [NoDevOutcome, StreamerWrap.dev_get_min_bufwrite_timeout, hg,
      resMap]
  · simp [NoDevOutcome, StreamerWrap.dev_set_min_bufwrite_timeout, hgm]
  · simp [NoDevOutcome, StreamerWrap.ao_chan_name, StreamerWrap.get_ao_chan,
      hg, resMap]
  · simp [NoDevOutcome, StreamerWrap.do_chan_name, StreamerWrap.get_do_chan,
      hg, resMap]
  · simp [NoDevOutcome, StreamerWrap.ao_chan_dflt_val,
      StreamerWrap.get_ao_chan, hg, resMap]
  · simp [NoDevOutcome, StreamerWrap.do_chan_dflt_val,
      StreamerWrap.get_do_chan, hg, resMap]
  · simp [NoDevOutcome, StreamerWrap.ao_chan_rst_val,
      StreamerWrap.get_ao_chan, hg, resMap]
  · simp [NoDevOutcome, StreamerWrap.do_chan_rst_val,
      StreamerWrap.get_do_chan, hg, resMap]
  · simp [NoDevOutcome, StreamerWrap.chan_last_instr_end_time, hg]
  · simp [NoDevOutcome, StreamerWrap.chan_clear_edit_cache, hgm]
  · simp [NoDevOutcome, StreamerWrap.ao_chan_add_instr, hgm]
  · simp [NoDevOutcome, StreamerWrap.do_chan_add_instr, hgm]
  · simp [NoDevOutcome, StreamerWrap.ao_chan_calc_nsamps,
      StreamerWrap.get_ao_chan, hg]
  · simp [NoDevOutcome, StreamerWrap.do_chan_calc_nsamps,
      StreamerWrap.get_do_chan, hg]

/-- Witness for claim C3 on the concrete streamer `stW` and the
unregistered name `NoDev`. -/
theorem C3_witness :
    containsA stW.devs "NoDev" = false ∧
    UnknownDevBehavior stW "NoDev" 0 0 7 1 "ao0" 0 0 false false
      (some "PFI0") (some 5) zeroFA zeroFD 0 none none none :=
  ⟨by rfl,
    C3_unknown_dev_name_key_error stW "NoDev" (by rfl) 0 0 7 1 "ao0" 0 0
      false false (some "PFI0") (some 5) zeroFA zeroFD 0 none none none⟩

/-- Claim C4: adding an AO channel to a DO device (or a DO channel to an
AO device) fails with the type-mismatch key error and adds no channel (the
streamer is unchanged); the AO-channel accessor on a DO device and the
DO-channel accessor on an AO device likewise fail. -/
theorem C4_kind_mismatch_fails (s : Streamer) (nameD nameA : String)
    (devD : DODev) (devA : AODev)
    (hD : lookupA s.devs nameD = some (.DO devD))
    (hA : lookupA s.devs nameA = some (.AO devA))
    (chanIdx port line : Nat) (dfltA rstA : ℚ) (dfltD rstD : Bool) :
    (StreamerWrap.add_ao_chan s nameD chanIdx dfltA rstA =
      (.err (.keyError
        ("Cannot add analog output channel to non-AO device " ++ nameD)),
        s)) ∧
    (StreamerWrap.add_do_chan s nameA port line dfltD rstD =
      (.err (.keyError
        ("Cannot add digital output channel to non-DO device " ++ nameA)),
        s)) ∧
    (StreamerWrap.get_ao_chan s nameD chanIdx =
      .err (.keyError
        ("Device " ++ nameD ++
          " is not an AO device and cannot have AO channels"))) ∧
    (StreamerWrap.get_do_chan s nameA port line =
      .err (.keyError
        ("Device " ++ nameA ++
          " is not a DO device and cannot have DO channels"))) := by
  have hgD := get_dev_ok_of_lookup s nameD (.DO devD) hD
  have hgmD := get_dev_mut_ok_of_lookup s nameD (.DO devD) hD
  have hgA := get_dev_ok_of_lookup s nameA (.AO devA) hA
  have hgmA := get_dev_mut_ok_of_lookup s nameA (.AO devA) hA
  refine ⟨?_, ?_, ?_, ?_⟩
  · simp [StreamerWrap.add_ao_chan, hgmD]
  · simp [StreamerWrap.add_do_chan, hgmA]
  · simp [StreamerWrap.get_ao_chan, hgD]
  · simp [StreamerWrap.get_do_chan, hgA]

/-- Witness for claim C4 on `stW`: `Dev2` is a DO device, `Dev1` an AO
device. -/
theorem C4_witness :
    lookupA stW.devs "Dev2" = some (.DO (DODev.new "Dev2" 10000000)) ∧
    lookupA stW.devs "Dev1" = some (.AO (AODev.new "Dev1" 1000)) ∧
    (StreamerWrap.add_ao_chan stW "Dev2" 0 0 0 =
      (.err (.keyError
        "Cannot add analog output channel to non-AO device Dev2"), stW)) ∧
    (StreamerWrap.get_do_chan stW "Dev1" 0 0 =
      .err (.keyError
        "Device Dev1 is not a DO device and cannot have DO channels")) :=
  have hD : lookupA stW.devs "Dev2" =
      some (.DO (DODev.new "Dev2" 10000000)) := by rfl
  have hA : lookupA stW.devs "Dev1" =
      some (.AO (AODev.new "Dev1" 1000)) := by rfl
  have hall := C4_kind_mismatch_fails stW "Dev2" "Dev1"
    (DODev.new "Dev2" 10000000) (AODev.new "Dev1" 1000) hD hA 0 0 0 0 0
    false false
  ⟨hD, hA, hall.1, hall.2.2.2⟩

theorem ao_chan_name_after_add (s s' : Streamer) (devName : String)
    (chanIdx : Nat) (dflt rst : ℚ)
    (h : StreamerWrap.add_ao_chan s devName chanIdx dflt rst = (.ok (), s')) :
    (StreamerWrap.ao_chan_name s' devName chanIdx).1 =
      .ok ("ao" ++ toString chanIdx) := by
  cases hg : StreamerWrap.get_dev_mut s devName with
  | ok d =>
      cases d with
      | AO dev =>
          simp only [StreamerWrap.add_ao_chan, hg] at h
          cases hadd : AODev.addChanSort dev
              (AOChan.new chanIdx dev.sampRate dflt rst) with
          | ok dev' =>
              rw [hadd] at h
              simp only [Prod.mk.injEq] at h
              by_cases hfr : containsA dev.chans
                  (AOChan.new chanIdx dev.sampRate dflt rst).name
              · simp [AODev.addChanSort, hfr] at hadd
              · have hfr' : containsA dev.chans
                    (AOChan.new chanIdx dev.sampRate dflt rst).name = false :=
                  Bool.of_not_eq_true hfr
                simp only [AODev.addChanSort, hfr', Bool.false_eq_true,
                  if_false, Except.ok.injEq] at hadd
                have hlk := get_dev_mut_ok_implies s devName (.AO dev) hg
                have hc : containsA s.devs devName = true :=
                  (containsA_iff_lookupA_isSome s.devs devName).mpr
                    (by simp [hlk])
                have hgd := get_dev_setDevAt s devName (.AO dev') hc
                have hchans : lookupA dev'.chans ("ao" ++ toString chanIdx) =
                    some (AOChan.new chanIdx dev.sampRate dflt rst) := by
                  rw [← hadd]
                  exact lookupA_insertChanSorted_fresh dev.chans
                    (AOChan.new chanIdx dev.sampRate dflt rst).name
                    (AOChan.new chanIdx dev.sampRate dflt rst) hfr'
                rw [← h.2]
                simp [StreamerWrap.ao_chan_name, StreamerWrap.get_ao_chan,
                  hgd, hchans, resMap, AOChan.name, AOChan.new]
          | error msg =>
              rw [hadd] at h
              simp at h
      | DO dev => simp [StreamerWrap.add_ao_chan, hg] at h
  | err e => simp [StreamerWrap.add_ao_chan, hg] at h
  | panic m => simp [StreamerWrap.add_ao_chan, hg] at h

theorem do_chan_name_after_add (s s' : Streamer) (devName : String)
    (port line : Nat) (dflt rst : Bool)
    (h : StreamerWrap.add_do_chan s devName port line dflt rst =
      (.ok (), s')) :
    (StreamerWrap.do_chan_name s' devName port line).1 =
      .ok ("port" ++ toString port ++ "/line" ++ toString line) := by
  cases hg : StreamerWrap.get_dev_mut s devName with
  | ok d =>
      cases d with
      | DO dev =>
          simp only [StreamerWrap.add_do_chan, hg] at h
          cases hadd : DODev.addChanSort dev
              (DOChan.new port line dev.sampRate dflt rst) with
          | ok dev' =>
              rw [hadd] at h
              simp only [Prod.mk.injEq] at h
              by_cases hfr : containsA dev.chans
                  (DOChan.new port line dev.sampRate dflt rst).name
              · simp [DODev.addChanSort, hfr] at hadd
              · have hfr' : containsA dev.chans
                    (DOChan.new port line dev.sampRate dflt rst).name =
                      false := Bool.of_not_eq_true hfr
                simp only [DODev.addChanSort, hfr', Bool.false_eq_true,
                  if_false, Except.ok.injEq] at hadd
                have hlk := get_dev_mut_ok_implies s devName (.DO dev) hg
                have hc : containsA s.devs devName = true :=
                  (containsA_iff_lookupA_isSome s.devs devName).mpr
                    (by simp [hlk])
                have hgd := get_dev_setDevAt s devName (.DO dev') hc
                have hchans : lookupA dev'.chans
                    ("port" ++ toString port ++ "/line" ++ toString line) =
                    some (DOChan.new port line dev.sampRate dflt rst) := by
                  rw [← hadd]
                  exact lookupA_insertChanSorted_fresh dev.chans
                    (DOChan.new port line dev.sampRate dflt rst).name
                    (DOChan.new port line dev.sampRate dflt rst) hfr'
                rw [← h.2]
                simp [StreamerWrap.do_chan_name, StreamerWrap.get_do_chan,
                  hgd, hchans, resMap, DOChan.name, DOChan.new]
          | error msg =>
              rw [hadd] at h
              simp at h
      | AO dev => simp [StreamerWrap.add_do_chan, hg] at h
  | err e => simp [StreamerWrap.add_do_chan, hg] at h
  | panic m => simp [StreamerWrap.add_do_chan, hg] at h

/-- Claim C9: after a successful `add_ao_chan(dev, idx, ..)`,
`ao_chan_name(dev, idx)` succeeds and returns `"ao{idx}"`; after a
successful `add_do_chan(dev, p, l, ..)`, `do_chan_name(dev, p, l)`
succeeds and returns `"port{p}/line{l}"`. -/
theorem C9_chan_names_computed (sA sD sA' sD' : Streamer)
    (devNameA devNameD : String) (chanIdx port line : Nat)
    (dfltA rstA : ℚ) (dfltD rstD : Bool)
    (hA : StreamerWrap.add_ao_chan sA devNameA chanIdx dfltA rstA =
      (.ok (), sA'))
    (hD : StreamerWrap.add_do_chan sD devNameD port line dfltD rstD =
      (.ok (), sD')) :
    (StreamerWrap.ao_chan_name sA' devNameA chanIdx).1 =
      .ok ("ao" ++ toString chanIdx) ∧
    (StreamerWrap.do_chan_name sD' devNameD port line).1 =
      .ok ("port" ++ toString port ++ "/line" ++ toString line) :=
  ⟨ao_chan_name_after_add sA sA' devNameA chanIdx dfltA rstA hA,
    do_chan_name_after_add sD sD' devNameD port line dfltD rstD hD⟩

/-- Witness for claim C9: concrete adds on `stW` and the names read back. -/
theorem C9_witness :
    (StreamerWrap.add_ao_chan stW "Dev1" 3 0 0 =
      (.ok (), (StreamerWrap.add_ao_chan stW "Dev1" 3 0 0).2)) ∧
    (StreamerWrap.add_do_chan stW "Dev2" 0 5 false false =
      (.ok (), (StreamerWrap.add_do_chan stW "Dev2" 0 5 false false).2)) ∧
    (StreamerWrap.ao_chan_name
      (StreamerWrap.add_ao_chan stW "Dev1" 3 0 0).2 "Dev1" 3).1 =
      .ok ("ao" ++ toString 3) ∧
    (StreamerWrap.do_chan_name
      (StreamerWrap.add_do_chan stW "Dev2" 0 5 false false).2
        "Dev2" 0 5).1 =
      .ok ("port" ++ toString 0 ++ "/line" ++ toString 5) :=
  have hA : StreamerWrap.add_ao_chan stW "Dev1" 3 0 0 =
      (.ok (), (StreamerWrap.add_ao_chan stW "Dev1" 3 0 0).2) := by rfl
  have hD : StreamerWrap.add_do_chan stW "Dev2" 0 5 false false =
      (.ok (), (StreamerWrap.add_do_chan stW "Dev2" 0 5 false false).2) := by
    rfl
  have hall := C9_chan_names_computed stW stW
    (StreamerWrap.add_ao_chan stW "Dev1" 3 0 0).2
    (StreamerWrap.add_do_chan stW "Dev2" 0 5 false false).2
    "Dev1" "Dev2" 3 0 5 0 0 false false hA hD
  ⟨hA, hD, hall.1, hall.2⟩

/-! ## Timeline non-overlap (claim C5) -/

/-- Two instructions that do not conflict (the invariant `add_instr`
maintains between every pair on a channel). -/
def noConflict {V : Type} (a b : Instr V) : Prop :=
  a.conflictsWith b = false

theorem noConflict_symm {V : Type} {a b : Instr V} (h : noConflict a b) :
    noConflict b a := by
  unfold noConflict at h ⊢
  rw [Instr.conflictsWith_symm]
  exact h

theorem pairwise_insertInstr {V : Type} (x : Instr V) (l : List (Instr V))
    (hl : l.Pairwise noConflict) (hx : ∀ y ∈ l, noConflict y x) :
    (insertInstr x l).Pairwise noConflict := by
  induction l with
  | nil => simp [insertInstr]
  | cons y ys ih =>
      rcases List.pairwise_cons.mp hl with ⟨hy, hys⟩
      by_cases hle : x.start ≤ y.start
      · simp only [insertInstr, hle, if_true]
        refine List.pairwise_cons.mpr ⟨?_, hl⟩
        intro z hz
        exact noConflict_symm (hx z hz)
      · simp only [insertInstr, hle, if_false]
        refine List.pairwise_cons.mpr
          ⟨?_, ih hys (fun z hz => hx z (List.mem_cons_of_mem _ hz))⟩
        intro z hz
        rcases mem_insertInstr x z ys hz with hzx | hzy
        · rw [hzx]
          exact hx y (List.mem_cons_self _ _)
        · exact hy z hzy

theorem addInstrTL_ok_pairwise {V : Type} (tl tl' : List (Instr V))
    (f : ℚ → V) (t : ℚ) (durSpec : Option (ℚ × Bool))
    (h : addInstrTL tl f t durSpec = .ok tl')
    (hpw : tl.Pairwise noConflict) : tl'.Pairwise noConflict := by
  by_cases hneg : t < 0
  · simp [addInstrTL, hneg] at h
  · by_cases hconf : tl.any
        (fun i => i.conflictsWith (⟨t, durSpec, f⟩ : Instr V))
    · simp [addInstrTL, hneg, hconf] at h
    · have hconf' : tl.any
          (fun i => i.conflictsWith (⟨t, durSpec, f⟩ : Instr V)) = false :=
        Bool.of_not_eq_true hconf
      simp only [addInstrTL, hneg, if_false, hconf', Bool.false_eq_true,
        Except.ok.injEq] at h
      rw [← h]
      refine pairwise_insertInstr _ _ hpw ?_
      intro y hy
      have := List.any_eq_false.mp hconf' y hy
      simpa [noConflict] using this

theorem disjoint_of_noConflict {V : Type} (i k : Instr V)
    (h : i.conflictsWith k = false) (ei ek : ℚ)
    (hei : ∀ e, i.fixedEnd = some e → ei = e)
    (hek : ∀ e, k.fixedEnd = some e → ek = e) :
    ivalDisjoint (i.start, ei) (k.start, ek) := by
  intro τ hc
  obtain ⟨h1, h2, h3, h4⟩ := hc
  simp only at h1 h2 h3 h4
  unfold Instr.conflictsWith at h
  cases hfi : i.fixedEnd with
  | some a =>
      cases hfk : k.fixedEnd with
      | some b =>
          rw [hfi, hfk] at h
          have hmax : max i.start k.start ≤ τ := max_le h1 h3
          have hmin : τ < min a b :=
            lt_min (hei a hfi ▸ h2) (hek b hfk ▸ h4)
          simpa using absurd (lt_of_le_of_lt hmax hmin)
            (by simpa [qmax_eq_max, qmin_eq_min] using of_decide_eq_false h)
      | none =>
          rw [hfi, hfk] at h
          have hmax : max i.start k.start ≤ τ := max_le h1 h3
          have hlt : τ < a := hei a hfi ▸ h2
          exact absurd (lt_of_le_of_lt hmax hlt)
            (by simpa [qmax_eq_max, qmin_eq_min] using of_decide_eq_false h)
  | none =>
      cases hfk : k.fixedEnd with
      | some b =>
          rw [hfi, hfk] at h
          have hmax : max i.start k.start ≤ τ := max_le h1 h3
          have hlt : τ < b := hek b hfk ▸ h4
          exact absurd (lt_of_le_of_lt hmax hlt)
            (by simpa [qmax_eq_max, qmin_eq_min] using of_decide_eq_false h)
      | none =>
          rw [hfi, hfk] at h
          simp at h

theorem mem_resolveTL {V : Type} (stop : ℚ) (l : List (Instr V))
    (p : ℚ × ℚ) (hp : p ∈ resolveTL stop l) :
    ∃ k, k ∈ l ∧ p.1 = k.start ∧ ∀ e, k.fixedEnd = some e → p.2 = e := by
  induction l with
  | nil => simp [resolveTL] at hp
  | cons i rest ih =>
      cases rest with
      | nil =>
          simp only [resolveTL, List.mem_singleton] at hp
          refine ⟨i, List.mem_cons_self _ _, by rw [hp], ?_⟩
          intro e he
          rw [hp]
          simp [he]
      | cons j rest2 =>
          simp only [resolveTL, List.mem_cons] at hp
          rcases hp with hp | hp
          · refine ⟨i, List.mem_cons_self _ _, by rw [hp], ?_⟩
            intro e he
            rw [hp]
            simp [he]
          · obtain ⟨k, hk, h1, h2⟩ := ih hp
            exact ⟨k, List.mem_cons_of_mem _ hk, h1, h2⟩

theorem pairwise_resolveTL {V : Type} (stop : ℚ) (l : List (Instr V))
    (h : l.Pairwise noConflict) :
    (resolveTL stop l).Pairwise ivalDisjoint := by
  induction l with
  | nil => simp [resolveTL]
  | cons i rest ih =>
      rcases List.pairwise_cons.mp h with ⟨hi, hrest⟩
      cases rest with
      | nil => simp [resolveTL]
      | cons j rest2 =>
          simp only [resolveTL]
          refine List.pairwise_cons.mpr ⟨?_, ih hrest⟩
          intro q hq
          obtain ⟨k, hkmem, hq1, hq2⟩ := mem_resolveTL stop _ q hq
          have hik : noConflict i k := hi k hkmem
          have hei : ∀ e, i.fixedEnd = some e →
              (match i.fixedEnd with | some e => e | none => j.start) = e := by
            intro e he
            simp [he]
          have hd := disjoint_of_noConflict i k hik
            (match i.fixedEnd with | some e => e | none => j.start)
            q.2 hei hq2
          intro τ hc
          obtain ⟨a1, a2, a3, a4⟩ := hc
          exact hd τ ⟨a1, a2, hq1 ▸ a3, a4⟩

/-- The instruction timeline of the AO channel `"ao{chanIdx}"` of device
`devName`, if that device and channel exist. -/
def aoChanInstrs (s : Streamer) (devName : String) (chanIdx : Nat) :
    Option (List (Instr ℚ)) :=
  match lookupA s.devs devName with
  | some (.AO dev) =>
      (lookupA dev.chans ("ao" ++ toString chanIdx)).map (fun ch => ch.instrs)
  | _ => none

/-- The instruction timeline of the DO channel `"port{p}/line{l}"`. -/
def doChanInstrs (s : Streamer) (devName : String) (port line : Nat) :
    Option (List (Instr Bool)) :=
  match lookupA s.devs devName with
  | some (.DO dev) =>
      (lookupA dev.chans
        ("port" ++ toString port ++ "/line" ++ toString line)).map
        (fun ch => ch.instrs)
  | _ => none

/-- Folds a sequence of `ao_chan_add_instr` calls on one channel; `none` as
soon as one call is not accepted. -/
def applyAOCalls (devName : String) (chanIdx : Nat) :
    Streamer → List ((ℚ → ℚ) × ℚ × Option (ℚ × Bool)) → Option Streamer
  | s, [] => some s
  | s, c :: cs =>
      match StreamerWrap.ao_chan_add_instr s devName chanIdx
          c.1 c.2.1 c.2.2 with
      | (.ok _, s1) => applyAOCalls devName chanIdx s1 cs
      | (.err _, _) => none
      | (.panic _, _) => none

/-- Folds a sequence of `do_chan_add_instr` calls on one channel. -/
def applyDOCalls (devName : String) (port line : Nat) :
    Streamer → List ((ℚ → Bool) × ℚ × Option (ℚ × Bool)) → Option Streamer
  | s, [] => some s
  | s, c :: cs =>
      match StreamerWrap.do_chan_add_instr s devName port line
          c.1 c.2.1 c.2.2 with
      | (.ok _, s1) => applyDOCalls devName port line s1 cs
      | (.err _, _) => none
      | (.panic _, _) => none

theorem ao_chan_add_instr_step (s s' : Streamer) (devName : String)
    (chanIdx : Nat) (f : ℚ → ℚ) (t : ℚ) (durSpec : Option (ℚ × Bool))
    (tl : List (Instr ℚ))
    (h : StreamerWrap.ao_chan_add_instr s devName chanIdx f t durSpec =
      (.ok (), s'))
    (htl : aoChanInstrs s devName chanIdx = some tl) :
    ∃ tl', addInstrTL tl f t durSpec = .ok tl' ∧
      aoChanInstrs s' devName chanIdx = some tl' := by
  cases hg : StreamerWrap.get_dev_mut s devName with
  | ok d =>
      cases d with
      | AO dev =>
          have hlkdev := get_dev_mut_ok_implies s devName (.AO dev) hg
          simp only [StreamerWrap.ao_chan_add_instr, hg] at h
          cases hlk : lookupA dev.chans ("ao" ++ toString chanIdx) with
          | some chan =>
              cases haTL : addInstrTL chan.instrs f t durSpec with
              | ok tl0 =>
                  have haddi : chan.addInstr f t durSpec =
                      .ok { chan with instrs := tl0, compiledStop := none } := by
                    simp [AOChan.addInstr, Except.map, haTL]
                  simp only [hlk, haddi, Prod.mk.injEq] at h
                  have htl' : tl = chan.instrs := by
                    simp only [aoChanInstrs, hlkdev, hlk, Option.map_some] at htl
                    exact (Option.some.injEq _ _ ▸ htl).symm
                  have hcdev : containsA s.devs devName = true :=
                    (containsA_iff_lookupA_isSome s.devs devName).mpr
                      (by simp [hlkdev])
                  have hcch : containsA dev.chans
                      ("ao" ++ toString chanIdx) = true :=
                    (containsA_iff_lookupA_isSome dev.chans _).mpr
                      (by simp [hlk])
                  refine ⟨tl0, by rw [htl']; exact haTL, ?_⟩
                  rw [← h.2]
                  simp only [aoChanInstrs, setDevAt,
                    lookupA_updateA_self s.devs devName _ hcdev,
                    lookupA_updateA_self dev.chans _ _ hcch,
                    Option.map_some, Option.map]
              | error msg =>
                  have haddi : chan.addInstr f t durSpec = .error msg := by
                    simp [AOChan.addInstr, Except.map, haTL]
                  simp [hlk, haddi] at h
          | none =>
              simp [hlk] at h
      | DO dev => simp [StreamerWrap.ao_chan_add_instr, hg] at h
  | err e => simp [StreamerWrap.ao_chan_add_instr, hg] at h
  | panic m => simp [StreamerWrap.ao_chan_add_instr, hg] at h

theorem do_chan_add_instr_step (s s' : Streamer) (devName : String)
    (port line : Nat) (f : ℚ → Bool) (t : ℚ) (durSpec : Option (ℚ × Bool))
    (tl : List (Instr Bool))
    (h : StreamerWrap.do_chan_add_instr s devName port line f t durSpec =
      (.ok (), s'))
    (htl : doChanInstrs s devName port line = some tl) :
    ∃ tl', addInstrTL tl f t durSpec = .ok tl' ∧
      doChanInstrs s' devName port line = some tl' := by
  cases hg : StreamerWrap.get_dev_mut s devName with
  | ok d =>
      cases d with
      | DO dev =>
          have hlkdev := get_dev_mut_ok_implies s devName (.DO dev) hg
          simp only [StreamerWrap.do_chan_add_instr, hg] at h
          cases hlk : lookupA dev.chans
              ("port" ++ toString port ++ "/line" ++ toString line) with
          | some chan =>
              cases haTL : addInstrTL chan.instrs f t durSpec with
              | ok tl0 =>
                  have haddi : chan.addInstr f t durSpec =
                      .ok { chan with instrs := tl0, compiledStop := none } := by
                    simp [DOChan.addInstr, Except.map, haTL]
                  simp only [hlk, haddi, Prod.mk.injEq] at h
                  have htl' : tl = chan.instrs := by
                    simp only [doChanInstrs, hlkdev, hlk, Option.map_some] at htl
                    exact (Option.some.injEq _ _ ▸ htl).symm
                  have hcdev : containsA s.devs devName = true :=
                    (containsA_iff_lookupA_isSome s.devs devName).mpr
                      (by simp [hlkdev])
                  have hcch : containsA dev.chans
                      ("port" ++ toString port ++ "/line" ++ toString line) =
                      true :=
                    (containsA_iff_lookupA_isSome dev.chans _).mpr
                      (by simp [hlk])
                  refine ⟨tl0, by rw [htl']; exact haTL, ?_⟩
                  rw [← h.2]
                  simp only [doChanInstrs, setDevAt,
                    lookupA_updateA_self s.devs devName _ hcdev,
                    lookupA_updateA_self dev.chans _ _ hcch,
                    Option.map_some, Option.map]
              | error msg =>
                  have haddi : chan.addInstr f t durSpec = .error msg := by
                    simp [DOChan.addInstr, Except.map, haTL]
                  simp [hlk, haddi] at h
          | none =>
              simp [hlk] at h
      | AO dev => simp [StreamerWrap.do_chan_add_instr, hg] at h
  | err e => simp [StreamerWrap.do_chan_add_instr, hg] at h
  | panic m => simp [StreamerWrap.do_chan_add_instr, hg] at h

theorem applyAOCalls_pairwise (devName : String) (chanIdx : Nat)
    (calls : List ((ℚ → ℚ) × ℚ × Option (ℚ × Bool))) :
    ∀ (s s' : Streamer) (tl0 tl : List (Instr ℚ)),
      aoChanInstrs s devName chanIdx = some tl0 →
      tl0.Pairwise noConflict →
      applyAOCalls devName chanIdx s calls = some s' →
      aoChanInstrs s' devName chanIdx = some tl →
      tl.Pairwise noConflict := by
  induction calls with
  | nil =>
      intro s s' tl0 tl h0 hpw happ htl
      have hs : s = s' := by simpa [applyAOCalls] using happ
      subst hs
      rw [h0] at htl
      obtain rfl : tl0 = tl := by simpa using htl
      exact hpw
  | cons c cs ih =>
      intro s s' tl0 tl h0 hpw happ htl
      rcases hstep : StreamerWrap.ao_chan_add_instr s devName chanIdx
          c.1 c.2.1 c.2.2 with ⟨r, s1⟩
      cases r with
      | ok u =>
          cases u
          simp only [applyAOCalls, hstep] at happ
          obtain ⟨tl1, haTL, h1⟩ := ao_chan_add_instr_step s s1 devName
            chanIdx c.1 c.2.1 c.2.2 tl0 hstep h0
          exact ih s1 s' tl1 tl h1
            (addInstrTL_ok_pairwise tl0 tl1 c.1 c.2.1 c.2.2 haTL hpw)
            happ htl
      | err e => simp [applyAOCalls, hstep] at happ
      | panic m => simp [applyAOCalls, hstep] at happ

theorem applyDOCalls_pairwise (devName : String) (port line : Nat)
    (calls : List ((ℚ → Bool) × ℚ × Option (ℚ × Bool))) :
    ∀ (s s' : Streamer) (tl0 tl : List (Instr Bool)),
      doChanInstrs s devName port line = some tl0 →
      tl0.Pairwise noConflict →
      applyDOCalls devName port line s calls = some s' →
      doChanInstrs s' devName port line = some tl →
      tl.Pairwise noConflict := by
  induction calls with
  | nil =>
      intro s s' tl0 tl h0 hpw happ htl
      have hs : s = s' := by simpa [applyDOCalls] using happ
      subst hs
      rw [h0] at htl
      obtain rfl : tl0 = tl := by simpa using htl
      exact hpw
  | cons c cs ih =>
      intro s s' tl0 tl h0 hpw happ htl
      rcases hstep : StreamerWrap.do_chan_add_instr s devName port line
          c.1 c.2.1 c.2.2 with ⟨r, s1⟩
      cases r with
      | ok u =>
          cases u
          simp only [applyDOCalls, hstep] at happ
          obtain ⟨tl1, haTL, h1⟩ := do_chan_add_instr_step s s1 devName
            port line c.1 c.2.1 c.2.2 tl0 hstep h0
          exact ih s1 s' tl1 tl h1
            (addInstrTL_ok_pairwise tl0 tl1 c.1 c.2.1 c.2.2 haTL hpw)
            happ htl
      | err e => simp [applyDOCalls, hstep] at happ
      | panic m => simp [applyDOCalls, hstep] at happ

/-- Claim C5: for every sequence of `ao_chan_add_instr` /
`do_chan_add_instr` calls on one (initially empty) channel that are all
accepted without error, the resolved time intervals of that channel's
instructions are pairwise disjoint: for any two distinct instructions the
half-open intervals `[start, end)` do not intersect, for every resolution
stop time. -/
theorem C5_accepted_adds_have_disjoint_intervals
    (sA sA' sD sD' : Streamer) (devNameA devNameD : String)
    (chanIdx port line : Nat)
    (callsA : List ((ℚ → ℚ) × ℚ × Option (ℚ × Bool)))
    (callsD : List ((ℚ → Bool) × ℚ × Option (ℚ × Bool)))
    (tlA : List (Instr ℚ)) (tlD : List (Instr Bool))
    (hA0 : aoChanInstrs sA devNameA chanIdx = some [])
    (hArun : applyAOCalls devNameA chanIdx sA callsA = some sA')
    (hAtl : aoChanInstrs sA' devNameA chanIdx = some tlA)
    (hD0 : doChanInstrs sD devNameD port line = some [])
    (hDrun : applyDOCalls devNameD port line sD callsD = some sD')
    (hDtl : doChanInstrs sD' devNameD port line = some tlD)
    (stopA stopD : ℚ)
    (i j : Fin (resolveTL stopA tlA).length) (hij : i ≠ j)
    (k l : Fin (resolveTL stopD tlD).length) (hkl : k ≠ l) :
    ivalDisjoint ((resolveTL stopA tlA).get i)
      ((resolveTL stopA tlA).get j) ∧
    ivalDisjoint ((resolveTL stopD tlD).get k)
      ((resolveTL stopD tlD).get l) := by
  have hApw : tlA.Pairwise noConflict :=
    applyAOCalls_pairwise devNameA chanIdx callsA sA sA' [] tlA hA0
      (by simp) hArun hAtl
  have hDpw : tlD.Pairwise noConflict :=
    applyDOCalls_pairwise devNameD port line callsD sD sD' [] tlD hD0
      (by simp) hDrun hDtl
  have hAr := pairwise_resolveTL stopA tlA hApw
  have hDr := pairwise_resolveTL stopD tlD hDpw
  constructor
  · rcases hij.lt_or_lt with hlt | hlt
    · exact List.pairwise_iff_get.mp hAr i j hlt
    · exact ivalDisjoint_symm (List.pairwise_iff_get.mp hAr j i hlt)
  · rcases hkl.lt_or_lt with hlt | hlt
    · exact List.pairwise_iff_get.mp hDr k l hlt
    · exact ivalDisjoint_symm (List.pairwise_iff_get.mp hDr l k hlt)

/-- Concrete accepted AO call sequence: a fixed instruction on `[0, 1)`
followed by an open-ended instruction at `t = 2`. -/
def callsW : List ((ℚ → ℚ) × ℚ × Option (ℚ × Bool)) :=
  [(zeroFA, 0, some (1, true)), (zeroFA, 2, none)]

/-- Concrete accepted DO call sequence: fixed instructions on `[0, 1)` and
`[3, 5)`. -/
def callsWD : List ((ℚ → Bool) × ℚ × Option (ℚ × Bool)) :=
  [(zeroFD, 0, some (1, false)), (zeroFD, 3, some (2, true))]

/-- `stW1` after the two accepted AO `add_instr` calls of `callsW`. -/
def stW2 : Streamer :=
  (StreamerWrap.ao_chan_add_instr
    ((StreamerWrap.ao_chan_add_instr stW1 "Dev1" 0 zeroFA 0
      (some (1, true))).2) "Dev1" 0 zeroFA 2 none).2

/-- `stW1` after the two accepted DO `add_instr` calls of `callsWD`. -/
def stW2D : Streamer :=
  (StreamerWrap.do_chan_add_instr
    ((StreamerWrap.do_chan_add_instr stW1 "Dev2" 0 0 zeroFD 0
      (some (1, false))).2) "Dev2" 0 0 zeroFD 3 (some (2, true))).2

/-- The AO timeline `callsW` builds. -/
def tlW : List (Instr ℚ) :=
  [⟨0, some (1, true), zeroFA⟩, ⟨2, none, zeroFA⟩]

/-- The DO timeline `callsWD` builds. -/
def tlWD : List (Instr Bool) :=
  [⟨0, some (1, false), zeroFD⟩, ⟨3, some (2, true), zeroFD⟩]

/-- Witness for claim C5: the concrete call sequences are accepted and the
first and second resolved intervals of each resulting timeline are
disjoint (resolution stop time `5`). -/
theorem C5_witness :
    aoChanInstrs stW1 "Dev1" 0 = some [] ∧
    applyAOCalls "Dev1" 0 stW1 callsW = some stW2 ∧
    aoChanInstrs stW2 "Dev1" 0 = some tlW ∧
    doChanInstrs stW1 "Dev2" 0 0 = some [] ∧
    applyDOCalls "Dev2" 0 0 stW1 callsWD = some stW2D ∧
    doChanInstrs stW2D "Dev2" 0 0 = some tlWD ∧
    ivalDisjoint ((resolveTL 5 tlW).get ⟨0, by decide⟩)
      ((resolveTL 5 tlW).get ⟨1, by decide⟩) ∧
    ivalDisjoint ((resolveTL 5 tlWD).get ⟨0, by decide⟩)
      ((resolveTL 5 tlWD).get ⟨1, by decide⟩) :=
  have hall := C5_accepted_adds_have_disjoint_intervals stW1 stW2 stW1 stW2D
    "Dev1" "Dev2" 0 0 0 callsW callsWD tlW tlWD (by with_unfolding_all rfl)
    (by with_unfolding_all rfl) (by with_unfolding_all rfl)
    (by with_unfolding_all rfl) (by with_unfolding_all rfl)
    (by with_unfolding_all rfl) 5 5
    ⟨0, by decide⟩ ⟨1, by decide⟩ (by decide) ⟨0, by decide⟩ ⟨1, by decide⟩
    (by decide)
  ⟨by with_unfolding_all rfl, by with_unfolding_all rfl,
    by with_unfolding_all rfl, by with_unfolding_all rfl,
    by with_unfolding_all rfl, by with_unfolding_all rfl, hall.1, hall.2⟩

end NiStreamer
